import Mathlib

/-!
Verification of the adaptive traffic-signal controller in `app3.py`.

The controller state is a fixed set of four lanes (`lane1 .. lane4`,
embedded as `Fin 4` indices `0 .. 3`), each holding a light colour, a
remaining-time counter, an optional pending next state, and the latest
perception observations (emergency flag, vehicle count, congestion weight).
One call to `update_traffic_lights` is one tick: decrement timers, resolve
pending transitions, then run exactly one of emergency forcing,
weight-based forcing, or normal rotation.  `calculate_red_time` projects a
red lane's remaining wait from the current green lane, and
`update_settings` applies a configuration request and resets the rotation.

Python floats carried by lane weights are embedded as rationals: the only
operation the controller performs on them is order comparison.  Machine
integers do not overflow in this program; timers are embedded as `Int`.
-/

inductive Light where
  | red
  | yellow
  | green
deriving DecidableEq, Repr

structure Lane where
  emergency : Bool
  remaining_time : Int
  light : Light
  vehicle_count : Nat
  weight : ℚ
  next_state : Option Light
deriving DecidableEq, Repr

structure Settings where
  mode : String
  cycle_duration : Int
  yellow_duration : Int
  weight_threshold : ℚ
deriving DecidableEq, Repr

/-- The four-lane shared state `traffic_data`. -/
structure TrafficData where
  lane1 : Lane
  lane2 : Lane
  lane3 : Lane
  lane4 : Lane
deriving DecidableEq, Repr

namespace TrafficData

def get (st : TrafficData) : Fin 4 → Lane
  | 0 => st.lane1
  | 1 => st.lane2
  | 2 => st.lane3
  | 3 => st.lane4

def set (st : TrafficData) : Fin 4 → Lane → TrafficData
  | 0, l => { st with lane1 := l }
  | 1, l => { st with lane2 := l }
  | 2, l => { st with lane3 := l }
  | 3, l => { st with lane4 := l }

end TrafficData

/-- `next((k for k, v in traffic_data.items() if v["light"] == "green"), None)`:
the first lane in fixed order `lane1..lane4` whose light is green.  In
`calculate_red_time` the source first takes the first green lane object and
then looks up the first key whose value equals it; since any key preceding
the first green lane has a non-green light, that lookup returns exactly the
first green lane. -/
def firstGreenLane (st : TrafficData) : Option (Fin 4) :=
  if (st.get 0).light = Light.green then some 0
  else if (st.get 1).light = Light.green then some 1
  else if (st.get 2).light = Light.green then some 2
  else if (st.get 3).light = Light.green then some 3
  else none

/-- First lane in fixed order whose `emergency` flag is set. -/
def firstEmergencyLane (st : TrafficData) : Option (Fin 4) :=
  if (st.get 0).emergency then some 0
  else if (st.get 1).emergency then some 1
  else if (st.get 2).emergency then some 2
  else if (st.get 3).emergency then some 3
  else none

/-- `calculate_red_time(lane_id)`: projected remaining wait of a lane, from
the first green lane's remaining time and the lane's rotation position
`(lane_index - green_index) mod 4`. -/
def calculate_red_time (s : Settings) (st : TrafficData) (i : Fin 4) : Int :=
  match firstGreenLane st with
  | none => 0
  | some g =>
    let gr := (st.get g).remaining_time
    let p : Fin 4 := i - g
    if p = 0 then 0
    else if p = 1 then gr + s.yellow_duration
    else if p = 2 then gr + s.yellow_duration + s.cycle_duration
    else gr + s.yellow_duration + s.cycle_duration * 2

/-- One iteration of the first loop of `update_traffic_lights` at lane `i`:
decrement a positive timer, otherwise recompute a red lane's wait. -/
def decrementStep (s : Settings) (st : TrafficData) (i : Fin 4) : TrafficData :=
  if 0 < (st.get i).remaining_time then
    st.set i { st.get i with remaining_time := (st.get i).remaining_time - 1 }
  else if (st.get i).light = Light.red then
    st.set i { st.get i with remaining_time := calculate_red_time s st i }
  else st

/-- The full decrement loop, lanes processed in fixed order. -/
def decrementPhase (s : Settings) (st : TrafficData) : TrafficData :=
  decrementStep s (decrementStep s (decrementStep s (decrementStep s st 0) 1) 2) 3

/-- One iteration of the transition loop at lane `i`: a lane whose timer has
elapsed and whose `next_state` is set moves to that state; a new green gets
`cycle_duration`, a new yellow gets `yellow_duration`, and a new red gets a
recomputed wait (computed on the state in which this lane is already red). -/
def transitionStep (s : Settings) (st : TrafficData) (i : Fin 4) : TrafficData :=
  match (st.get i).next_state with
  | none => st
  | some ns =>
    if (st.get i).remaining_time ≤ 0 then
      match ns with
      | Light.green =>
        st.set i { st.get i with light := Light.green, next_state := none,
                                 remaining_time := s.cycle_duration }
      | Light.yellow =>
        st.set i { st.get i with light := Light.yellow, next_state := none,
                                 remaining_time := s.yellow_duration }
      | Light.red =>
        (st.set i { st.get i with light := Light.red, next_state := none }).set i
          { st.get i with light := Light.red, next_state := none,
                          remaining_time :=
                            calculate_red_time s
                              (st.set i
                                { st.get i with light := Light.red,
                                                next_state := none }) i }
    else st

/-- The full transition loop, lanes processed in fixed order. -/
def transitionPhase (s : Settings) (st : TrafficData) : TrafficData :=
  transitionStep s (transitionStep s (transitionStep s (transitionStep s st 0) 1) 2) 3

/-- The per-lane effect of the emergency / weight forcing loop with target
lane `t`: the target is pushed toward green, every other lane toward red. -/
def forceLane (y : Int) (t i : Fin 4) (l : Lane) : Lane :=
  if i = t then
    if l.light = Light.green then l
    else if l.light = Light.red then
      { l with light := Light.yellow, next_state := some Light.green,
               remaining_time := y }
    else { l with next_state := some Light.green }
  else
    if l.light = Light.green then
      { l with light := Light.yellow, next_state := some Light.red,
               remaining_time := y }
    else if l.light = Light.yellow ∧ l.next_state ≠ some Light.red then
      { l with next_state := some Light.red }
    else l

/-- The forcing loop applied to all four lanes (no lane reads another, so
the loop is a pointwise map). -/
def applyForcing (y : Int) (t : Fin 4) (st : TrafficData) : TrafficData :=
  TrafficData.mk (forceLane y t 0 st.lane1) (forceLane y t 1 st.lane2)
    (forceLane y t 2 st.lane3) (forceLane y t 3 st.lane4)

/-- `max(high_weight_lanes.items(), key=...)[0]` over the lanes whose weight
strictly exceeds the threshold: Python's `max` keeps the first of equal
keys, so the fold replaces the candidate only on a strict increase. -/
def highWeightTarget (s : Settings) (st : TrafficData) : Option (Fin 4) :=
  let hw := ([0, 1, 2, 3] : List (Fin 4)).filter
    (fun i => decide (s.weight_threshold < (st.get i).weight))
  match hw with
  | [] => none
  | x :: xs =>
    some (xs.foldl
      (fun best j => if (st.get best).weight < (st.get j).weight then j else best) x)

/-- The normal-rotation block: defer while any lane is yellow or the green
lane still has time; otherwise begin the hand-off to the next lane in fixed
rotation order, or seed the rotation at `lane4` if no lane is green. -/
def normalRotation (s : Settings) (st : TrafficData) : TrafficData :=
  if (st.get 0).light = Light.yellow ∨ (st.get 1).light = Light.yellow ∨
     (st.get 2).light = Light.yellow ∨ (st.get 3).light = Light.yellow then st
  else
    match firstGreenLane st with
    | some g =>
      if 0 < (st.get g).remaining_time then st
      else
        let st1 := st.set g
          { st.get g with light := Light.yellow, next_state := some Light.red,
                          remaining_time := s.yellow_duration }
        st1.set (g + 1)
          { st1.get (g + 1) with light := Light.yellow, next_state := some Light.green,
                                 remaining_time := s.yellow_duration }
    | none =>
      st.set 3
        { st.get 3 with light := Light.yellow, next_state := some Light.green,
                        remaining_time := s.yellow_duration }

/-- `update_traffic_lights()`: one tick, on the state
`transitionPhase s (decrementPhase s st)` left by the two loops. -/
def update_traffic_lights (s : Settings) (st : TrafficData) : TrafficData :=
  match firstEmergencyLane (transitionPhase s (decrementPhase s st)) with
  | some e => applyForcing s.yellow_duration e (transitionPhase s (decrementPhase s st))
  | none =>
    match highWeightTarget s (transitionPhase s (decrementPhase s st)) with
    | some t => applyForcing s.yellow_duration t (transitionPhase s (decrementPhase s st))
    | none => normalRotation s (transitionPhase s (decrementPhase s st))

/-- A JSON value submitted for a numeric settings field: either something
`int()` accepts, or something that makes it raise. -/
inductive ReqVal where
  | num (n : Int)
  | nonNumeric (src : String)
deriving DecidableEq, Repr

/-- A `/update_settings` request body; absent fields keep prior values. -/
structure SettingsRequest where
  mode : Option String
  duration : Option ReqVal
  yellow_duration : Option ReqVal
deriving DecidableEq, Repr

inductive UpdateResult where
  | ok
  | err (msg : String)
deriving DecidableEq, Repr

/-- `int(data.get(field, current))`. -/
def parseIntField : Option ReqVal → Int → Except String Int
  | none, d => Except.ok d
  | some (ReqVal.num n), _ => Except.ok n
  | some (ReqVal.nonNumeric v), _ =>
    Except.error ("invalid literal for int with base 10: " ++ v)

/-- The per-lane effect of the rotation reset in `update_settings`,
anchored at lane `g`. -/
def resetLane (s : Settings) (g i : Fin 4) (l : Lane) : Lane :=
  if i - g = 0 then
    { l with light := Light.green, remaining_time := s.cycle_duration,
             next_state := none }
  else
    { l with light := Light.red,
             remaining_time := ((i - g : Fin 4).val : Int) * s.cycle_duration,
             next_state := none }

/-- `update_settings()`: apply `mode`, then `int(duration)`, then
`int(yellow_duration)` in that order — an `int()` failure aborts at that
point, leaving earlier assignments in place — then reset the rotation
anchored at the first green lane (default `lane4`). -/
def update_settings (st : TrafficData) (s : Settings) (req : SettingsRequest) :
    TrafficData × Settings × UpdateResult :=
  let s1 := { s with mode := req.mode.getD s.mode }
  match parseIntField req.duration s1.cycle_duration with
  | Except.error m => (st, s1, UpdateResult.err m)
  | Except.ok c =>
    let s2 := { s1 with cycle_duration := c }
    match parseIntField req.yellow_duration s2.yellow_duration with
    | Except.error m => (st, s2, UpdateResult.err m)
    | Except.ok y =>
      let s3 := { s2 with yellow_duration := y }
      let g := (firstGreenLane st).getD 3
      (TrafficData.mk (resetLane s3 g 0 st.lane1) (resetLane s3 g 1 st.lane2)
        (resetLane s3 g 2 st.lane3) (resetLane s3 g 3 st.lane4),
       s3, UpdateResult.ok)

/-- The effect of one observation tuple from the perception subsystem on the
shared state (the `traffic_data[...].update({...})` in `detect_objects`). -/
def setObservation (st : TrafficData) (i : Fin 4) (e : Bool) (c : Nat) (w : ℚ) :
    TrafficData :=
  st.set i { st.get i with emergency := e, vehicle_count := c, weight := w }

/-- A configuration request that changes nothing (all fields absent). -/
def noChangeRequest : SettingsRequest :=
  SettingsRequest.mk none none none

/-- The seed value of `traffic_data`. -/
def initialTrafficData : TrafficData :=
  TrafficData.mk
    (Lane.mk false 45 Light.red 0 0 none)
    (Lane.mk false 30 Light.red 0 0 none)
    (Lane.mk false 15 Light.red 0 0 none)
    (Lane.mk false 0 Light.green 0 0 none)

/-- The seed value of `system_settings`. -/
def initialSettings : Settings :=
  Settings.mk "auto" 15 3 6

/-- States of the shared data reachable from the seed values through ticks,
configuration updates and observation ingestion. -/
inductive Reachable : TrafficData × Settings → Prop where
  | init : Reachable (initialTrafficData, initialSettings)
  | tick {st s} : Reachable (st, s) → Reachable (update_traffic_lights s st, s)
  | config {st s} (req : SettingsRequest) : Reachable (st, s) →
      Reachable ((update_settings st s req).1, (update_settings st s req).2.1)
  | observe {st s} (i : Fin 4) (e : Bool) (c : Nat) (w : ℚ) : Reachable (st, s) →
      Reachable (setObservation st i e c w, s)

/-! ### Pointwise characterization of the decrement loop

Each iteration of the decrement loop writes only its own lane, and the value
written changes only `remaining_time`; the recomputed wait of a red lane
depends on the surrounding (partially updated) state and is abstracted as an
existential. -/

/-- Lane-local shape of one decrement-loop iteration; `r` stands for the
recomputed wait of an elapsed red lane. -/
def laneDecremented (l : Lane) (r : Int) : Lane :=
  if 0 < l.remaining_time then { l with remaining_time := l.remaining_time - 1 }
  else if l.light = Light.red then { l with remaining_time := r }
  else l

/-! ### Pointwise characterization of the transition loop -/

/-- Lane-local shape of one transition-loop iteration; `r` stands for the
recomputed wait when the lane turns red. -/
def laneStepped (s : Settings) (l : Lane) (r : Int) : Lane :=
  match l.next_state with
  | none => l
  | some ns =>
    if l.remaining_time ≤ 0 then
      { l with light := ns, next_state := none,
               remaining_time :=
                 match ns with
                 | Light.green => s.cycle_duration
                 | Light.yellow => s.yellow_duration
                 | Light.red => r }
    else l

/-! ### The structural invariant behind mutual exclusion

`GoodState` collects the facts about lights and pending states that every
reachable state satisfies: at most one green lane; a pending `next_state`
lives only on a yellow lane; at most one pending green; and a pending green
excludes any current green. -/

def GoodState (st : TrafficData) : Prop :=
  (∀ i j : Fin 4, (st.get i).light = Light.green → (st.get j).light = Light.green → i = j) ∧
  (∀ i : Fin 4, (st.get i).next_state ≠ none → (st.get i).light = Light.yellow) ∧
  (∀ i j : Fin 4, (st.get i).next_state = some Light.green →
    (st.get j).next_state = some Light.green → i = j) ∧
  (∀ i j : Fin 4, (st.get i).next_state = some Light.green →
    (st.get j).light ≠ Light.green)

/-! ### TimingCalculator exactness -/

/-- A state with lane4 green holding 10 seconds and the other lanes red:
lane2 sits at rotation position 2, lane3 at position 3. -/
def sampleGreenState : TrafficData :=
  TrafficData.mk
    (Lane.mk false 45 Light.red 0 0 none)
    (Lane.mk false 30 Light.red 0 0 none)
    (Lane.mk false 15 Light.red 0 0 none)
    (Lane.mk false 10 Light.green 0 0 none)

/-- A state in the middle of a hand-off: two yellow lanes, no green lane
(it is the state one tick after the seed state). -/
def dualYellowState : TrafficData :=
  TrafficData.mk
    (Lane.mk false 3 Light.yellow 0 0 (some Light.green))
    (Lane.mk false 29 Light.red 0 0 none)
    (Lane.mk false 14 Light.red 0 0 none)
    (Lane.mk false 3 Light.yellow 0 0 (some Light.red))

/-! ### Configuration validation -/

/-- A request carrying a mode change together with a non-numeric duration. -/
def badDurationRequest : SettingsRequest :=
  SettingsRequest.mk (some "manual") (some (ReqVal.nonNumeric "abc")) none

/-- A request carrying an out-of-range (negative) duration. -/
def negativeDurationRequest : SettingsRequest :=
  SettingsRequest.mk none (some (ReqVal.num (-5))) none

/-! ### Weight-based preemption -/

/-- State whose only nonzero weight is exactly the threshold (6) on lane2. -/
def thresholdEqState : TrafficData :=
  TrafficData.mk
    (Lane.mk false 45 Light.red 0 0 none)
    (Lane.mk false 30 Light.red 0 6 none)
    (Lane.mk false 15 Light.red 0 0 none)
    (Lane.mk false 10 Light.green 0 0 none)

/-- State whose only nonzero weight is 6.01 on lane2. -/
def thresholdOverState : TrafficData :=
  TrafficData.mk
    (Lane.mk false 45 Light.red 0 0 none)
    (Lane.mk false 30 Light.red 0 (mkRat 601 100) none)
    (Lane.mk false 15 Light.red 0 0 none)
    (Lane.mk false 10 Light.green 0 0 none)

/-! ### Emergency preemption -/

/-- Lane1 red and flagged as emergency while lane4 is green. -/
def emergencyRedState : TrafficData :=
  TrafficData.mk
    (Lane.mk true 45 Light.red 0 0 none)
    (Lane.mk false 30 Light.red 0 0 none)
    (Lane.mk false 15 Light.red 0 0 none)
    (Lane.mk false 10 Light.green 0 0 none)

/-! ### Rotation closure -/

/-- No lane currently reports an emergency. -/
def NoEmergency (st : TrafficData) : Prop :=
  ∀ i : Fin 4, (st.get i).emergency = false

/-- Every lane's weight is at or below the preemption threshold. -/
def LowWeight (s : Settings) (st : TrafficData) : Prop :=
  ∀ i : Fin 4, (st.get i).weight ≤ s.weight_threshold

/-- The steady rotation shape: lane `k` green holding `r` seconds with no
pending state, every other lane red with no pending state. -/
def RotState (k : Fin 4) (r : Int) (st : TrafficData) : Prop :=
  (st.get k).light = Light.green ∧ (st.get k).remaining_time = r ∧
  (st.get k).next_state = none ∧
  ∀ j : Fin 4, j ≠ k → (st.get j).light = Light.red ∧ (st.get j).next_state = none

/-- The hand-off shape: lane `k` yellow heading to red and lane `k+1`
yellow heading to green, both holding `yl` seconds; all others red. -/
def HandoffState (k : Fin 4) (yl : Int) (st : TrafficData) : Prop :=
  (st.get k).light = Light.yellow ∧ (st.get k).remaining_time = yl ∧
  (st.get k).next_state = some Light.red ∧
  (st.get (k + 1)).light = Light.yellow ∧ (st.get (k + 1)).remaining_time = yl ∧
  (st.get (k + 1)).next_state = some Light.green ∧
  ∀ j : Fin 4, j ≠ k → j ≠ k + 1 →
    (st.get j).light = Light.red ∧ (st.get j).next_state = none

/-- Settings with one-second cycle and yellow durations, for a concrete run
of the rotation. -/
def unitSettings : Settings :=
  Settings.mk "auto" 1 1 6

/-- A rotation state for `unitSettings`: lane1 green for one second. -/
def unitRotStart : TrafficData :=
  TrafficData.mk
    (Lane.mk false 1 Light.green 0 0 none)
    (Lane.mk false 1 Light.red 0 0 none)
    (Lane.mk false 2 Light.red 0 0 none)
    (Lane.mk false 3 Light.red 0 0 none)

/-- The holding pattern during an emergency preemption toward lane `m`:
`m` yellow with a pending green and `r` seconds left, everyone else neither
green nor heading anywhere but red. -/
def EmergHold (m : Fin 4) (r : Int) (st : TrafficData) : Prop :=
  (st.get m).light = Light.yellow ∧ (st.get m).remaining_time = r ∧
  (st.get m).next_state = some Light.green ∧ (st.get m).emergency = true ∧
  ∀ j : Fin 4, j ≠ m → (st.get j).emergency = false ∧
    (st.get j).light ≠ Light.green ∧
    ((st.get j).light = Light.yellow → (st.get j).next_state = some Light.red) ∧
    ((st.get j).light = Light.red → (st.get j).next_state = none)

/-! ### Timer sign and the stuck-at-zero behaviour -/

/-- Request setting a one-second cycle and a three-second yellow. -/
def c9Request : SettingsRequest :=
  SettingsRequest.mk none (some (ReqVal.num 1)) (some (ReqVal.num 3))

/-- After the one-second-cycle configuration, flag lane3 as an emergency. -/
def c9State1 : TrafficData :=
  setObservation (update_settings initialTrafficData initialSettings c9Request).1
    2 true 0 0

def c9Settings : Settings :=
  (update_settings initialTrafficData initialSettings c9Request).2.1

def c9State2 : TrafficData := update_traffic_lights c9Settings c9State1

/-- Every lane timer is nonnegative. -/
def NonNegState (st : TrafficData) : Prop :=
  ∀ i : Fin 4, 0 ≤ (st.get i).remaining_time

/-- Reachability restricted to configuration updates that only ever supply
nonnegative duration values. -/
inductive ReachableNN : TrafficData × Settings → Prop where
  | init : ReachableNN (initialTrafficData, initialSettings)
  | tick {st s} : ReachableNN (st, s) → ReachableNN (update_traffic_lights s st, s)
  | config {st s} (req : SettingsRequest)
      (hdur : ∀ n : Int, req.duration = some (ReqVal.num n) → 0 ≤ n)
      (hyel : ∀ n : Int, req.yellow_duration = some (ReqVal.num n) → 0 ≤ n) :
      ReachableNN (st, s) →
      ReachableNN ((update_settings st s req).1, (update_settings st s req).2.1)
  | observe {st s} (i : Fin 4) (e : Bool) (c : Nat) (w : ℚ) : ReachableNN (st, s) →
      ReachableNN (setObservation st i e c w, s)

/-! ### Basic access lemmas -/

theorem TrafficData.get_set (st : TrafficData) (i : Fin 4) (l : Lane) (j : Fin 4) :
    (st.set i l).get j = if j = i then l else st.get j := by
  fin_cases i <;> fin_cases j <;> simp [TrafficData.get, TrafficData.set]

theorem TrafficData.set_set (st : TrafficData) (i : Fin 4) (l l2 : Lane) :
    (st.set i l).set i l2 = st.set i l2 := by
  fin_cases i <;> simp [TrafficData.set]

theorem decrementStep_get (s : Settings) (st : TrafficData) (i j : Fin 4) :
    (decrementStep s st i).get j =
      if j = i then laneDecremented (st.get i) (calculate_red_time s st i)
      else st.get j := by
  by_cases hj : j = i
  · subst hj
    unfold decrementStep laneDecremented
    split_ifs <;> simp_all [TrafficData.get_set]
  · unfold decrementStep
    split_ifs <;> simp [TrafficData.get_set, hj]

theorem decrementPhase_get (s : Settings) (st : TrafficData) (i : Fin 4) :
    ∃ r : Int, (decrementPhase s st).get i = laneDecremented (st.get i) r := by
  unfold decrementPhase
  fin_cases i
  · show ∃ r, (decrementStep s _ 3).get 0 = laneDecremented (st.get 0) r
    rw [decrementStep_get s _ 3 0, if_neg (by decide), decrementStep_get s _ 2 0,
      if_neg (by decide), decrementStep_get s _ 1 0, if_neg (by decide),
      decrementStep_get s st 0 0, if_pos rfl]
    exact ⟨_, rfl⟩
  · show ∃ r, (decrementStep s _ 3).get 1 = laneDecremented (st.get 1) r
    rw [decrementStep_get s _ 3 1, if_neg (by decide), decrementStep_get s _ 2 1,
      if_neg (by decide), decrementStep_get s _ 1 1, if_pos rfl,
      decrementStep_get s st 0 1, if_neg (by decide)]
    exact ⟨_, rfl⟩
  · show ∃ r, (decrementStep s _ 3).get 2 = laneDecremented (st.get 2) r
    rw [decrementStep_get s _ 3 2, if_neg (by decide), decrementStep_get s _ 2 2,
      if_pos rfl, decrementStep_get s _ 1 2, if_neg (by decide),
      decrementStep_get s st 0 2, if_neg (by decide)]
    exact ⟨_, rfl⟩
  · show ∃ r, (decrementStep s _ 3).get 3 = laneDecremented (st.get 3) r
    rw [decrementStep_get s _ 3 3, if_pos rfl, decrementStep_get s _ 2 3,
      if_neg (by decide), decrementStep_get s _ 1 3, if_neg (by decide),
      decrementStep_get s st 0 3, if_neg (by decide)]
    exact ⟨_, rfl⟩

theorem laneDecremented_light (l : Lane) (r : Int) :
    (laneDecremented l r).light = l.light := by
  unfold laneDecremented; split_ifs <;> rfl

theorem laneDecremented_next (l : Lane) (r : Int) :
    (laneDecremented l r).next_state = l.next_state := by
  unfold laneDecremented; split_ifs <;> rfl

theorem laneDecremented_emergency (l : Lane) (r : Int) :
    (laneDecremented l r).emergency = l.emergency := by
  unfold laneDecremented; split_ifs <;> rfl

theorem laneDecremented_weight (l : Lane) (r : Int) :
    (laneDecremented l r).weight = l.weight := by
  unfold laneDecremented; split_ifs <;> rfl

theorem transitionStep_get (s : Settings) (st : TrafficData) (i j : Fin 4) :
    (transitionStep s st i).get j =
      if j = i then
        laneStepped s (st.get i)
          (calculate_red_time s
            (st.set i { st.get i with light := Light.red, next_state := none }) i)
      else st.get j := by
  by_cases hj : j = i
  · subst hj
    unfold transitionStep laneStepped
    rcases hn : (st.get j).next_state with _ | ns
    · simp [hn]
    · by_cases h1 : (st.get j).remaining_time ≤ 0
      · cases ns <;> simp [hn, h1, TrafficData.get_set, TrafficData.set_set]
      · simp [hn, h1]
  · unfold transitionStep
    rcases hn : (st.get i).next_state with _ | ns
    · simp [hn, hj]
    · by_cases h1 : (st.get i).remaining_time ≤ 0
      · cases ns <;> simp [hn, h1, TrafficData.get_set, TrafficData.set_set, hj]
      · simp [hn, h1, hj]

theorem transitionPhase_get (s : Settings) (st : TrafficData) (i : Fin 4) :
    ∃ r : Int, (transitionPhase s st).get i = laneStepped s (st.get i) r := by
  unfold transitionPhase
  fin_cases i
  · show ∃ r, (transitionStep s _ 3).get 0 = laneStepped s (st.get 0) r
    rw [transitionStep_get s _ 3 0, if_neg (by decide), transitionStep_get s _ 2 0,
      if_neg (by decide), transitionStep_get s _ 1 0, if_neg (by decide),
      transitionStep_get s st 0 0, if_pos rfl]
    exact ⟨_, rfl⟩
  · show ∃ r, (transitionStep s _ 3).get 1 = laneStepped s (st.get 1) r
    rw [transitionStep_get s _ 3 1, if_neg (by decide), transitionStep_get s _ 2 1,
      if_neg (by decide), transitionStep_get s _ 1 1, if_pos rfl,
      transitionStep_get s st 0 1, if_neg (by decide)]
    exact ⟨_, rfl⟩
  · show ∃ r, (transitionStep s _ 3).get 2 = laneStepped s (st.get 2) r
    rw [transitionStep_get s _ 3 2, if_neg (by decide), transitionStep_get s _ 2 2,
      if_pos rfl, transitionStep_get s _ 1 2, if_neg (by decide),
      transitionStep_get s st 0 2, if_neg (by decide)]
    exact ⟨_, rfl⟩
  · show ∃ r, (transitionStep s _ 3).get 3 = laneStepped s (st.get 3) r
    rw [transitionStep_get s _ 3 3, if_pos rfl, transitionStep_get s _ 2 3,
      if_neg (by decide), transitionStep_get s _ 1 3, if_neg (by decide),
      transitionStep_get s st 0 3, if_neg (by decide)]
    exact ⟨_, rfl⟩

theorem laneStepped_emergency (s : Settings) (l : Lane) (r : Int) :
    (laneStepped s l r).emergency = l.emergency := by
  unfold laneStepped
  rcases l.next_state with _ | ns
  · rfl
  · dsimp only; split_ifs <;> rfl

theorem laneStepped_weight (s : Settings) (l : Lane) (r : Int) :
    (laneStepped s l r).weight = l.weight := by
  unfold laneStepped
  rcases l.next_state with _ | ns
  · rfl
  · dsimp only; split_ifs <;> rfl

/-! ### Pointwise view of forcing -/

theorem applyForcing_get (y : Int) (t : Fin 4) (st : TrafficData) (i : Fin 4) :
    (applyForcing y t st).get i = forceLane y t i (st.get i) := by
  fin_cases i <;> rfl

theorem forceLane_emergency (y : Int) (t i : Fin 4) (l : Lane) :
    (forceLane y t i l).emergency = l.emergency := by
  unfold forceLane; split_ifs <;> rfl

theorem forceLane_weight (y : Int) (t i : Fin 4) (l : Lane) :
    (forceLane y t i l).weight = l.weight := by
  unfold forceLane; split_ifs <;> rfl

/-! ### Scan lemmas for the first-green and first-emergency lookups -/

theorem fin4_add_one_ne (g : Fin 4) : g + 1 ≠ g := by
  fin_cases g <;> decide

theorem firstGreenLane_eq_some (st : TrafficData) (g : Fin 4)
    (hg : (st.get g).light = Light.green)
    (hb : ∀ j, j < g → (st.get j).light ≠ Light.green) :
    firstGreenLane st = some g := by
  fin_cases g
  · simp_all [firstGreenLane]
  · have h0 := hb 0 (by decide)
    simp_all [firstGreenLane]
  · have h0 := hb 0 (by decide)
    have h1 := hb 1 (by decide)
    simp_all [firstGreenLane]
  · have h0 := hb 0 (by decide)
    have h1 := hb 1 (by decide)
    have h2 := hb 2 (by decide)
    simp_all [firstGreenLane]

theorem firstGreenLane_eq_none (st : TrafficData)
    (h : ∀ j, (st.get j).light ≠ Light.green) :
    firstGreenLane st = none := by
  simp [firstGreenLane, h 0, h 1, h 2, h 3]

theorem firstGreenLane_green (st : TrafficData) (g : Fin 4)
    (h : firstGreenLane st = some g) : (st.get g).light = Light.green := by
  unfold firstGreenLane at h
  split_ifs at h <;> simp_all

theorem firstEmergencyLane_eq_some (st : TrafficData) (e : Fin 4)
    (he : (st.get e).emergency = true)
    (hb : ∀ j, j < e → (st.get j).emergency = false) :
    firstEmergencyLane st = some e := by
  fin_cases e
  · simp_all [firstEmergencyLane]
  · have h0 := hb 0 (by decide)
    simp_all [firstEmergencyLane]
  · have h0 := hb 0 (by decide)
    have h1 := hb 1 (by decide)
    simp_all [firstEmergencyLane]
  · have h0 := hb 0 (by decide)
    have h1 := hb 1 (by decide)
    have h2 := hb 2 (by decide)
    simp_all [firstEmergencyLane]

theorem firstEmergencyLane_eq_none (st : TrafficData)
    (h : ∀ j, (st.get j).emergency = false) :
    firstEmergencyLane st = none := by
  simp [firstEmergencyLane, h 0, h 1, h 2, h 3]

/-! ### Observations are read, never written, by a tick -/

theorem normalRotation_emergency (s : Settings) (st : TrafficData) (i : Fin 4) :
    ((normalRotation s st).get i).emergency = (st.get i).emergency := by
  unfold normalRotation
  split_ifs with h1
  · rfl
  · cases hg : firstGreenLane st with
    | none => by_cases hi : i = 3 <;> simp [TrafficData.get_set, hi]
    | some g =>
      dsimp only
      split_ifs with h2
      · rfl
      · by_cases hi1 : i = g + 1 <;> by_cases hi2 : i = g <;>
          simp [TrafficData.get_set, hi1, hi2, fin4_add_one_ne g]

theorem normalRotation_weight (s : Settings) (st : TrafficData) (i : Fin 4) :
    ((normalRotation s st).get i).weight = (st.get i).weight := by
  unfold normalRotation
  split_ifs with h1
  · rfl
  · cases hg : firstGreenLane st with
    | none => by_cases hi : i = 3 <;> simp [TrafficData.get_set, hi]
    | some g =>
      dsimp only
      split_ifs with h2
      · rfl
      · by_cases hi1 : i = g + 1 <;> by_cases hi2 : i = g <;>
          simp [TrafficData.get_set, hi1, hi2, fin4_add_one_ne g]

theorem midState_emergency (s : Settings) (st : TrafficData) (j : Fin 4) :
    ((transitionPhase s (decrementPhase s st)).get j).emergency = (st.get j).emergency := by
  obtain ⟨r, hr⟩ := transitionPhase_get s (decrementPhase s st) j
  obtain ⟨r2, hr2⟩ := decrementPhase_get s st j
  rw [hr, laneStepped_emergency, hr2, laneDecremented_emergency]

theorem midState_weight (s : Settings) (st : TrafficData) (j : Fin 4) :
    ((transitionPhase s (decrementPhase s st)).get j).weight = (st.get j).weight := by
  obtain ⟨r, hr⟩ := transitionPhase_get s (decrementPhase s st) j
  obtain ⟨r2, hr2⟩ := decrementPhase_get s st j
  rw [hr, laneStepped_weight, hr2, laneDecremented_weight]

theorem update_traffic_lights_emergency (s : Settings) (st : TrafficData) (i : Fin 4) :
    ((update_traffic_lights s st).get i).emergency = (st.get i).emergency := by
  unfold update_traffic_lights
  cases he : firstEmergencyLane (transitionPhase s (decrementPhase s st)) with
  | some e =>
    rw [applyForcing_get, forceLane_emergency, midState_emergency]
  | none =>
    cases hw : highWeightTarget s (transitionPhase s (decrementPhase s st)) with
    | some t =>
      rw [applyForcing_get, forceLane_emergency, midState_emergency]
    | none =>
      rw [normalRotation_emergency, midState_emergency]

theorem update_traffic_lights_weight (s : Settings) (st : TrafficData) (i : Fin 4) :
    ((update_traffic_lights s st).get i).weight = (st.get i).weight := by
  unfold update_traffic_lights
  cases he : firstEmergencyLane (transitionPhase s (decrementPhase s st)) with
  | some e =>
    rw [applyForcing_get, forceLane_weight, midState_weight]
  | none =>
    cases hw : highWeightTarget s (transitionPhase s (decrementPhase s st)) with
    | some t =>
      rw [applyForcing_get, forceLane_weight, midState_weight]
    | none =>
      rw [normalRotation_weight, midState_weight]

theorem goodState_congr (st st' : TrafficData)
    (h : ∀ i : Fin 4, (st'.get i).light = (st.get i).light ∧
      (st'.get i).next_state = (st.get i).next_state) :
    GoodState st → GoodState st' := by
  rintro ⟨g1, g2, g3, g4⟩
  refine ⟨fun i j hi hj => ?_, fun i hi => ?_, fun i j hi hj => ?_, fun i j hi => ?_⟩
  · rw [(h i).1] at hi; rw [(h j).1] at hj; exact g1 i j hi hj
  · rw [(h i).2] at hi; rw [(h i).1]; exact g2 i hi
  · rw [(h i).2] at hi; rw [(h j).2] at hj; exact g3 i j hi hj
  · rw [(h i).2] at hi; rw [(h j).1]; exact g4 i j hi

theorem goodState_decrementPhase (s : Settings) (st : TrafficData)
    (h : GoodState st) : GoodState (decrementPhase s st) := by
  refine goodState_congr st _ (fun i => ?_) h
  obtain ⟨r, hr⟩ := decrementPhase_get s st i
  rw [hr, laneDecremented_light, laneDecremented_next]
  exact ⟨rfl, rfl⟩

/-- Case split on the lane-local outcome of the transition loop. -/
theorem laneStepped_cases (s : Settings) (l : Lane) (r : Int) :
    ((laneStepped s l r).light = l.light ∧ (laneStepped s l r).next_state = l.next_state) ∨
    (∃ ns, l.next_state = some ns ∧ l.remaining_time ≤ 0 ∧
      (laneStepped s l r).light = ns ∧ (laneStepped s l r).next_state = none) := by
  unfold laneStepped
  cases hn : l.next_state with
  | none => exact Or.inl ⟨rfl, hn⟩
  | some ns =>
    by_cases h1 : l.remaining_time ≤ 0
    · refine Or.inr ⟨ns, rfl, h1, ?_, ?_⟩ <;> cases ns <;> simp [h1]
    · exact Or.inl ⟨by simp [h1], by simp [h1, hn]⟩

theorem goodState_transitionPhase (s : Settings) (st : TrafficData)
    (h : GoodState st) : GoodState (transitionPhase s st) := by
  obtain ⟨g1, g2, g3, g4⟩ := h
  refine ⟨fun i j hi hj => ?_, fun i hi => ?_, fun i j hi hj => ?_, fun i j hi => ?_⟩
  · obtain ⟨ri, hri⟩ := transitionPhase_get s st i
    obtain ⟨rj, hrj⟩ := transitionPhase_get s st j
    rw [hri] at hi; rw [hrj] at hj
    rcases laneStepped_cases s (st.get i) ri with ⟨hli, hni⟩ | ⟨nsi, hNi, hTi, hli, hni⟩
    · rcases laneStepped_cases s (st.get j) rj with ⟨hlj, hnj⟩ | ⟨nsj, hNj, hTj, hlj, hnj⟩
      · rw [hli] at hi; rw [hlj] at hj; exact g1 i j hi hj
      · rw [hli] at hi; rw [hlj] at hj; subst hj
        exact absurd hi (g4 j i hNj)
    · rcases laneStepped_cases s (st.get j) rj with ⟨hlj, hnj⟩ | ⟨nsj, hNj, hTj, hlj, hnj⟩
      · rw [hli] at hi; subst hi; rw [hlj] at hj
        exact absurd hj (g4 i j hNi)
      · rw [hli] at hi; subst hi; rw [hlj] at hj; subst hj
        exact g3 i j hNi hNj
  · obtain ⟨ri, hri⟩ := transitionPhase_get s st i
    rw [hri] at hi ⊢
    rcases laneStepped_cases s (st.get i) ri with ⟨hli, hni⟩ | ⟨nsi, hNi, hTi, hli, hni⟩
    · rw [hni] at hi; rw [hli]; exact g2 i hi
    · rw [hni] at hi; exact absurd rfl hi
  · obtain ⟨ri, hri⟩ := transitionPhase_get s st i
    obtain ⟨rj, hrj⟩ := transitionPhase_get s st j
    rw [hri] at hi; rw [hrj] at hj
    rcases laneStepped_cases s (st.get i) ri with ⟨hli, hni⟩ | ⟨nsi, hNi, hTi, hli, hni⟩
    · rcases laneStepped_cases s (st.get j) rj with ⟨hlj, hnj⟩ | ⟨nsj, hNj, hTj, hlj, hnj⟩
      · rw [hni] at hi; rw [hnj] at hj; exact g3 i j hi hj
      · rw [hnj] at hj; exact absurd hj (by simp)
    · rw [hni] at hi; exact absurd hi (by simp)
  · intro hj
    obtain ⟨ri, hri⟩ := transitionPhase_get s st i
    obtain ⟨rj, hrj⟩ := transitionPhase_get s st j
    rw [hri] at hi; rw [hrj] at hj
    rcases laneStepped_cases s (st.get i) ri with ⟨hli, hni⟩ | ⟨nsi, hNi, hTi, hli, hni⟩
    · rw [hni] at hi
      rcases laneStepped_cases s (st.get j) rj with ⟨hlj, hnj⟩ | ⟨nsj, hNj, hTj, hlj, hnj⟩
      · rw [hlj] at hj; exact g4 i j hi hj
      · rw [hlj] at hj; subst hj
        have hij : i = j := g3 i j hi hNj
        subst hij
        have heq := hri.symm.trans hrj
        rw [← heq] at hnj
        exact absurd (hi.symm.trans (hni.symm.trans hnj)) (by simp)
    · rw [hni] at hi; exact absurd hi (by simp)

theorem forceLane_light_green (y : Int) (t i : Fin 4) (l : Lane)
    (hg : (forceLane y t i l).light = Light.green) :
    i = t ∧ l.light = Light.green := by
  unfold forceLane at hg
  split_ifs at hg <;> simp_all

theorem forceLane_next_green (y : Int) (t i : Fin 4) (l : Lane)
    (hl : l.next_state ≠ none → l.light = Light.yellow)
    (hg : (forceLane y t i l).next_state = some Light.green) :
    i = t ∧ l.light ≠ Light.green := by
  unfold forceLane at hg
  split_ifs at hg <;> simp_all

theorem forceLane_light_of_next (y : Int) (t i : Fin 4) (l : Lane)
    (hl : l.next_state ≠ none → l.light = Light.yellow)
    (h : (forceLane y t i l).next_state ≠ none) :
    (forceLane y t i l).light = Light.yellow := by
  unfold forceLane at h ⊢
  split_ifs at h ⊢ <;> cases hL : l.light <;> simp_all

theorem goodState_applyForcing (y : Int) (t : Fin 4) (st : TrafficData)
    (h : GoodState st) : GoodState (applyForcing y t st) := by
  obtain ⟨g1, g2, g3, g4⟩ := h
  refine ⟨fun i j hi hj => ?_, fun i hi => ?_, fun i j hi hj => ?_, fun i j hi => ?_⟩
  · rw [applyForcing_get] at hi hj
    obtain ⟨hit, _⟩ := forceLane_light_green y t i (st.get i) hi
    obtain ⟨hjt, _⟩ := forceLane_light_green y t j (st.get j) hj
    rw [hit, hjt]
  · rw [applyForcing_get] at hi ⊢
    exact forceLane_light_of_next y t i (st.get i) (g2 i) hi
  · rw [applyForcing_get] at hi hj
    obtain ⟨hit, _⟩ := forceLane_next_green y t i (st.get i) (g2 i) hi
    obtain ⟨hjt, _⟩ := forceLane_next_green y t j (st.get j) (g2 j) hj
    rw [hit, hjt]
  · intro hj
    rw [applyForcing_get] at hi hj
    obtain ⟨hit, hnotg⟩ := forceLane_next_green y t i (st.get i) (g2 i) hi
    obtain ⟨hjt, hgt⟩ := forceLane_light_green y t j (st.get j) hj
    -- both facts land on the target lane `t`: its light cannot be green (to
    -- stay green at `j`) and non-green (to receive a pending green at `i`)
    rw [hit] at hnotg
    rw [hjt] at hgt
    exact hnotg hgt

theorem firstGreenLane_none_imp (st : TrafficData)
    (h : firstGreenLane st = none) : ∀ j : Fin 4, (st.get j).light ≠ Light.green := by
  intro j
  unfold firstGreenLane at h
  split_ifs at h with h0 h1 h2 h3
  any_goals simp at h
  fin_cases j <;> assumption

theorem goodState_normalRotation (s : Settings) (st : TrafficData)
    (h : GoodState st) : GoodState (normalRotation s st) := by
  obtain ⟨g1, g2, g3, g4⟩ := h
  unfold normalRotation
  split_ifs with h1
  · exact ⟨g1, g2, g3, g4⟩
  · simp only [not_or] at h1
    obtain ⟨hy0, hy1, hy2, hy3⟩ := h1
    have hy : ∀ j : Fin 4, (st.get j).light ≠ Light.yellow := by
      intro j; fin_cases j <;> assumption
    have hnone : ∀ j : Fin 4, (st.get j).next_state = none := by
      intro j; by_contra hc; exact hy j (g2 j hc)
    cases hg : firstGreenLane st with
    | some g =>
      dsimp only
      split_ifs with h2
      · exact ⟨g1, g2, g3, g4⟩
      · have hgreen := firstGreenLane_green st g hg
        refine ⟨fun i j hi hj => ?_, fun i hi => ?_, fun i j hi hj => ?_, fun i j hi => ?_⟩
        · by_cases hi1 : i = g + 1 <;> by_cases hi2 : i = g <;>
            by_cases hj1 : j = g + 1 <;> by_cases hj2 : j = g <;>
            simp [TrafficData.get_set, hi1, hi2, hj1, hj2, fin4_add_one_ne g] at hi hj <;>
            exact g1 i j hi hj
        · by_cases hi1 : i = g + 1 <;> by_cases hi2 : i = g <;>
            simp [TrafficData.get_set, hi1, hi2, fin4_add_one_ne g] at hi ⊢ <;>
            exact g2 i hi
        · by_cases hi1 : i = g + 1 <;> by_cases hi2 : i = g <;>
            by_cases hj1 : j = g + 1 <;> by_cases hj2 : j = g <;>
            simp [TrafficData.get_set, hi1, hi2, hj1, hj2, fin4_add_one_ne g,
              hnone i, hnone j] at hi hj ⊢
        · intro hj
          by_cases hj1 : j = g + 1 <;> by_cases hj2 : j = g <;>
            simp [TrafficData.get_set, hj1, hj2, fin4_add_one_ne g] at hj <;>
            exact hj2 (g1 j g hj hgreen)
    | none =>
      dsimp only
      have hng := firstGreenLane_none_imp st hg
      refine ⟨fun i j hi hj => ?_, fun i hi => ?_, fun i j hi hj => ?_, fun i j hi => ?_⟩
      · by_cases hi1 : i = 3 <;> by_cases hj1 : j = 3 <;>
          simp [TrafficData.get_set, hi1, hj1] at hi hj <;>
          exact absurd hi (hng i)
      · by_cases hi1 : i = 3 <;>
          simp [TrafficData.get_set, hi1] at hi ⊢ <;>
          exact g2 i hi
      · by_cases hi1 : i = 3 <;> by_cases hj1 : j = 3 <;>
          simp [TrafficData.get_set, hi1, hj1, hnone i, hnone j] at hi hj ⊢
      · intro hj
        by_cases hj1 : j = 3 <;>
          simp [TrafficData.get_set, hj1] at hj <;>
          exact absurd hj (hng j)

theorem fin4_sub_eq_zero (i g : Fin 4) : i - g = 0 ↔ i = g := by
  fin_cases i <;> fin_cases g <;> decide

theorem resetLane_light (s : Settings) (g i : Fin 4) (l : Lane) :
    (resetLane s g i l).light = if i - g = 0 then Light.green else Light.red := by
  unfold resetLane; split_ifs <;> rfl

theorem resetLane_next (s : Settings) (g i : Fin 4) (l : Lane) :
    (resetLane s g i l).next_state = none := by
  unfold resetLane; split_ifs <;> rfl

theorem goodState_resetState (s : Settings) (g : Fin 4) (a b c d : Lane) :
    GoodState (TrafficData.mk (resetLane s g 0 a) (resetLane s g 1 b)
      (resetLane s g 2 c) (resetLane s g 3 d)) := by
  have hlight : ∀ i : Fin 4,
      ((TrafficData.mk (resetLane s g 0 a) (resetLane s g 1 b)
        (resetLane s g 2 c) (resetLane s g 3 d)).get i).light =
      if i - g = 0 then Light.green else Light.red := by
    intro i; fin_cases i <;> simp [TrafficData.get, resetLane_light]
  have hnext : ∀ i : Fin 4,
      ((TrafficData.mk (resetLane s g 0 a) (resetLane s g 1 b)
        (resetLane s g 2 c) (resetLane s g 3 d)).get i).next_state = none := by
    intro i; fin_cases i <;> simp [TrafficData.get, resetLane_next]
  refine ⟨fun i j hi hj => ?_, fun i hi => ?_, fun i j hi hj => ?_, fun i j hi => ?_⟩
  · rw [hlight] at hi hj
    split_ifs at hi hj with p q
    · rw [(fin4_sub_eq_zero i g).mp p, (fin4_sub_eq_zero j g).mp q]
    all_goals simp_all
  · rw [hnext] at hi; exact absurd rfl hi
  · rw [hnext] at hi; simp at hi
  · rw [hnext] at hi; simp at hi

theorem goodState_update_settings (st : TrafficData) (s : Settings)
    (req : SettingsRequest) (h : GoodState st) :
    GoodState (update_settings st s req).1 := by
  unfold update_settings
  cases hd : parseIntField req.duration
      ({ s with mode := req.mode.getD s.mode } : Settings).cycle_duration with
  | error m => simpa [hd] using h
  | ok c =>
    cases hy : parseIntField req.yellow_duration
        ({ s with mode := req.mode.getD s.mode, cycle_duration := c } :
          Settings).yellow_duration with
    | error m => simp only [hd, hy]; exact h
    | ok y => simp only [hd, hy]; exact goodState_resetState _ _ _ _ _ _

theorem goodState_setObservation (st : TrafficData) (i : Fin 4) (e : Bool)
    (c : Nat) (w : ℚ) (h : GoodState st) :
    GoodState (setObservation st i e c w) := by
  refine goodState_congr st _ (fun j => ?_) h
  by_cases hj : j = i <;> simp [setObservation, TrafficData.get_set, hj]

theorem goodState_initialTrafficData : GoodState initialTrafficData := by
  constructor
  · decide
  constructor
  · decide
  constructor
  · decide
  · decide

theorem goodState_tick (s : Settings) (st : TrafficData) (h : GoodState st) :
    GoodState (update_traffic_lights s st) := by
  have hmid : GoodState (transitionPhase s (decrementPhase s st)) :=
    goodState_transitionPhase s _ (goodState_decrementPhase s st h)
  unfold update_traffic_lights
  cases he : firstEmergencyLane (transitionPhase s (decrementPhase s st)) with
  | some e => exact goodState_applyForcing _ _ _ hmid
  | none =>
    cases hw : highWeightTarget s (transitionPhase s (decrementPhase s st)) with
    | some t => exact goodState_applyForcing _ _ _ hmid
    | none => exact goodState_normalRotation _ _ hmid

theorem reachable_goodState (p : TrafficData × Settings) (h : Reachable p) :
    GoodState p.1 := by
  induction h with
  | init => exact goodState_initialTrafficData
  | tick _ ih => exact goodState_tick _ _ ih
  | config req _ ih => exact goodState_update_settings _ _ req ih
  | observe i e c w _ ih => exact goodState_setObservation _ _ _ _ _ ih

/-- C1: from any reachable state of the controller, after one call to
`update_traffic_lights` completes, at most one of the four lanes has
`light = Green`: two distinct lanes are never both green at the end of a
tick. -/
theorem tick_mutual_exclusion (st : TrafficData) (s : Settings)
    (h : Reachable (st, s)) (i j : Fin 4)
    (hi : ((update_traffic_lights s st).get i).light = Light.green)
    (hj : ((update_traffic_lights s st).get j).light = Light.green) :
    i = j :=
  (reachable_goodState _ (Reachable.tick h)).1 i j hi hj

theorem tick_mutual_exclusion_witness :
    ((update_traffic_lights
        (update_settings initialTrafficData initialSettings noChangeRequest).2.1
        (update_settings initialTrafficData initialSettings noChangeRequest).1).get
      3).light = Light.green ∧ (3 : Fin 4) = 3 := by
  constructor
  · decide
  · exact tick_mutual_exclusion _ _ (Reachable.config noChangeRequest Reachable.init)
      3 3 (by decide) (by decide)

/-- C6: with exactly one green lane `g`, `calculate_red_time` returns, for a
lane at rotation position `p = (lane_index - green_index) mod 4`: `0` at
position 0, `green + Y` at position 1, `green + Y + C` at position 2 and
`green + Y + 2 C` at position 3, where `green` is the green lane's
remaining time, `Y = yellow_duration` and `C = cycle_duration`. -/
theorem calculate_red_time_exact (s : Settings) (st : TrafficData) (g : Fin 4)
    (hg : (st.get g).light = Light.green)
    (hu : ∀ j : Fin 4, j ≠ g → (st.get j).light ≠ Light.green) (i : Fin 4) :
    calculate_red_time s st i =
      if i - g = 0 then 0
      else if i - g = 1 then (st.get g).remaining_time + s.yellow_duration
      else if i - g = 2 then
        (st.get g).remaining_time + s.yellow_duration + s.cycle_duration
      else (st.get g).remaining_time + s.yellow_duration + 2 * s.cycle_duration := by
  have hfirst : firstGreenLane st = some g :=
    firstGreenLane_eq_some st g hg (fun j hj => hu j (Fin.ne_of_lt hj))
  unfold calculate_red_time
  rw [hfirst]
  dsimp only
  split_ifs <;> ring

theorem calculate_red_time_exact_witness :
    calculate_red_time initialSettings sampleGreenState 1 = 28 ∧
    calculate_red_time initialSettings sampleGreenState 2 = 43 := by
  constructor
  · exact (calculate_red_time_exact initialSettings sampleGreenState 3 (by decide)
      (by decide) 1).trans (by decide)
  · exact (calculate_red_time_exact initialSettings sampleGreenState 3 (by decide)
      (by decide) 2).trans (by decide)

/-! ### Configuration reset -/

theorem TrafficData.get_map (f : Fin 4 → Lane → Lane) (st : TrafficData) (i : Fin 4) :
    (TrafficData.mk (f 0 st.lane1) (f 1 st.lane2) (f 2 st.lane3)
      (f 3 st.lane4)).get i = f i (st.get i) := by
  fin_cases i <;> rfl

/-- C8: a successful configuration update applied while lane `g` is the
(first) green lane keeps `g` green with the new `cycle_duration` and no
pending state, and makes every other lane red with wait
`position × cycle_duration` and no pending state. -/
theorem update_settings_reset_green (st : TrafficData) (s : Settings)
    (req : SettingsRequest) (c y : Int) (g : Fin 4)
    (hd : parseIntField req.duration s.cycle_duration = Except.ok c)
    (hy : parseIntField req.yellow_duration s.yellow_duration = Except.ok y)
    (hg : (st.get g).light = Light.green)
    (hb : ∀ j, j < g → (st.get j).light ≠ Light.green) :
    (update_settings st s req).2.2 = UpdateResult.ok ∧
    (update_settings st s req).2.1.cycle_duration = c ∧
    ∀ i : Fin 4, (update_settings st s req).1.get i =
      if i = g then
        { st.get i with light := Light.green, remaining_time := c,
                        next_state := none }
      else
        { st.get i with light := Light.red,
                        remaining_time := ((i - g : Fin 4).val : Int) * c,
                        next_state := none } := by
  have hfirst : firstGreenLane st = some g :=
    firstGreenLane_eq_some st g hg hb
  refine ⟨?_, ?_, fun i => ?_⟩
  · simp [update_settings, hd, hy]
  · simp [update_settings, hd, hy]
  · simp only [update_settings, hd, hy, hfirst]
    rw [show Option.getD (some g) 3 = g from rfl]
    rw [TrafficData.get_map]
    simp only [resetLane, fin4_sub_eq_zero]

theorem update_settings_reset_green_witness :
    (update_settings sampleGreenState initialSettings
      (SettingsRequest.mk none (some (ReqVal.num 20)) none)).1.get 0 =
      Lane.mk false 20 Light.red 0 0 none := by
  have h := (update_settings_reset_green sampleGreenState initialSettings
    (SettingsRequest.mk none (some (ReqVal.num 20)) none) 20 3 3
    rfl rfl (by decide) (by decide)).2.2 0
  exact h.trans (by decide)

/-- C10: a successful configuration update applied while no lane is green
anchors the reset at `lane4`: `lane4` becomes green with the new
`cycle_duration` and lanes 1, 2, 3 become red with waits of 1, 2 and 3
cycle durations, all pending hand-off state discarded. -/
theorem update_settings_reset_no_green (st : TrafficData) (s : Settings)
    (req : SettingsRequest) (c y : Int)
    (hd : parseIntField req.duration s.cycle_duration = Except.ok c)
    (hy : parseIntField req.yellow_duration s.yellow_duration = Except.ok y)
    (hng : ∀ j : Fin 4, (st.get j).light ≠ Light.green) :
    (update_settings st s req).2.2 = UpdateResult.ok ∧
    ∀ i : Fin 4, (update_settings st s req).1.get i =
      if i = 3 then
        { st.get i with light := Light.green, remaining_time := c,
                        next_state := none }
      else
        { st.get i with light := Light.red,
                        remaining_time := ((i - 3 : Fin 4).val : Int) * c,
                        next_state := none } := by
  have hfirst : firstGreenLane st = none := firstGreenLane_eq_none st hng
  refine ⟨?_, fun i => ?_⟩
  · simp [update_settings, hd, hy]
  · simp only [update_settings, hd, hy, hfirst]
    rw [show Option.getD (none : Option (Fin 4)) 3 = 3 from rfl]
    rw [TrafficData.get_map]
    simp only [resetLane, fin4_sub_eq_zero]

theorem update_settings_reset_no_green_witness :
    (update_settings dualYellowState initialSettings noChangeRequest).1.get 0 =
      Lane.mk false 15 Light.red 0 0 none := by
  have h := (update_settings_reset_no_green dualYellowState initialSettings
    noChangeRequest 15 3 rfl rfl (by decide)).2 0
  exact h.trans (by decide)

/-- C7 counterexample: a non-numeric `duration` is rejected with a failure
result, but the shared state is NOT left unchanged — the `mode` setting has
already been overwritten when the rejection happens; and an out-of-range
(negative) `duration` is not rejected at all. -/
theorem update_settings_invalid_counterexample :
    (update_settings initialTrafficData initialSettings badDurationRequest).2.2 ≠
      UpdateResult.ok ∧
    (update_settings initialTrafficData initialSettings
      badDurationRequest).2.1.mode = "manual" ∧
    initialSettings.mode = "auto" ∧
    (update_settings initialTrafficData initialSettings
      negativeDurationRequest).2.2 = UpdateResult.ok := by
  refine ⟨?_, rfl, rfl, rfl⟩
  decide

/-- C7 (amended): a non-numeric settings value is rejected with a failure
result and the lane state is left unchanged, but the fields processed
before the failing one are already applied (`mode` alone when `duration` is
non-numeric; `mode` and `cycle_duration` when only `yellow_duration` is
non-numeric); numeric values are accepted whatever their range — no
out-of-range check exists. -/
theorem update_settings_invalid_behavior (st : TrafficData) (s : Settings)
    (req : SettingsRequest) :
    (∀ v, req.duration = some (ReqVal.nonNumeric v) →
      (∃ m, (update_settings st s req).2.2 = UpdateResult.err m) ∧
      (update_settings st s req).1 = st ∧
      (update_settings st s req).2.1 = { s with mode := req.mode.getD s.mode }) ∧
    (∀ c v, parseIntField req.duration s.cycle_duration = Except.ok c →
      req.yellow_duration = some (ReqVal.nonNumeric v) →
      (∃ m, (update_settings st s req).2.2 = UpdateResult.err m) ∧
      (update_settings st s req).1 = st ∧
      (update_settings st s req).2.1 =
        { s with mode := req.mode.getD s.mode, cycle_duration := c }) ∧
    (∀ c y, parseIntField req.duration s.cycle_duration = Except.ok c →
      parseIntField req.yellow_duration s.yellow_duration = Except.ok y →
      (update_settings st s req).2.2 = UpdateResult.ok) := by
  refine ⟨fun v hv => ?_, fun c v hc hv => ?_, fun c y hc hy => ?_⟩
  · simp [update_settings, parseIntField, hv]
  · simp only [update_settings, hc]
    simp [parseIntField, hv]
  · simp [update_settings, hc, hy]

theorem update_settings_invalid_behavior_witness :
    (update_settings initialTrafficData initialSettings badDurationRequest).1 =
      initialTrafficData :=
  ((update_settings_invalid_behavior initialTrafficData initialSettings
    badDurationRequest).1 "abc" rfl).2.1

theorem highWeightTarget_congr (s : Settings) (a b : TrafficData)
    (h : ∀ i : Fin 4, (a.get i).weight = (b.get i).weight) :
    highWeightTarget s a = highWeightTarget s b := by
  unfold highWeightTarget
  simp only [h]

theorem highWeightTarget_eq_none_of_le (s : Settings) (st : TrafficData)
    (h : ∀ i : Fin 4, (st.get i).weight ≤ s.weight_threshold) :
    highWeightTarget s st = none := by
  unfold highWeightTarget
  have e : ∀ i : Fin 4, decide (s.weight_threshold < (st.get i).weight) = false :=
    fun i => decide_eq_false_iff_not.mpr (not_lt.mpr (h i))
  simp [List.filter, e 0, e 1, e 2, e 3]

theorem fin4_mem_scan_list : ∀ j : Fin 4, j ∈ ([0, 1, 2, 3] : List (Fin 4)) := by
  decide

/-- The fold driving Python's `max(..., key=...)`: over a sorted candidate
list it returns a member carrying the maximum weight, and any
strictly-earlier candidate carries a strictly smaller weight (first of
equal keys wins). -/
theorem foldl_weight_max (st : TrafficData) :
    ∀ (xs : List (Fin 4)) (x : Fin 4), ((x :: xs).Sorted (· < ·)) →
    (xs.foldl (fun best j =>
        if (st.get best).weight < (st.get j).weight then j else best) x ∈ x :: xs) ∧
    (∀ j ∈ x :: xs, (st.get j).weight ≤
      (st.get (xs.foldl (fun best j =>
        if (st.get best).weight < (st.get j).weight then j else best) x)).weight) ∧
    (∀ j ∈ x :: xs, j < xs.foldl (fun best j =>
        if (st.get best).weight < (st.get j).weight then j else best) x →
      (st.get j).weight < (st.get (xs.foldl (fun best j =>
        if (st.get best).weight < (st.get j).weight then j else best) x)).weight) := by
  intro xs
  induction xs with
  | nil =>
    intro x _
    refine ⟨List.mem_cons_self x [], ?_, ?_⟩
    · intro j hj
      rw [List.mem_singleton] at hj
      subst hj
      exact le_refl _
    · intro j hj hlt
      rw [List.mem_singleton] at hj
      subst hj
      exact absurd hlt (lt_irrefl _)
  | cons y ys ih =>
    intro x hs
    obtain ⟨hxall, htail⟩ := List.sorted_cons.mp hs
    by_cases hxy : (st.get x).weight < (st.get y).weight
    · have hres := ih y htail
      obtain ⟨m1, m2, m3⟩ := hres
      simp only [List.foldl_cons, if_pos hxy]
      refine ⟨List.mem_cons_of_mem x m1, ?_, ?_⟩
      · intro j hj
        rcases List.mem_cons.mp hj with hj | hj
        · subst hj
          exact le_of_lt (lt_of_lt_of_le hxy (m2 y (List.mem_cons_self y ys)))
        · exact m2 j hj
      · intro j hj hlt
        rcases List.mem_cons.mp hj with hj | hj
        · subst hj
          exact lt_of_lt_of_le hxy (m2 y (List.mem_cons_self y ys))
        · exact m3 j hj hlt
    · have hsx : (x :: ys).Sorted (· < ·) :=
        List.sorted_cons.mpr
          ⟨fun b hb => hxall b (List.mem_cons_of_mem y hb),
           (List.sorted_cons.mp htail).2⟩
      have hres := ih x hsx
      obtain ⟨m1, m2, m3⟩ := hres
      simp only [List.foldl_cons, if_neg hxy]
      have hxy2 : x < y := hxall y (List.mem_cons_self y ys)
      refine ⟨?_, ?_, ?_⟩
      · rcases List.mem_cons.mp m1 with hm | hm
        · rw [hm]; exact List.mem_cons_self x (y :: ys)
        · exact List.mem_cons_of_mem x (List.mem_cons_of_mem y hm)
      · intro j hj
        rcases List.mem_cons.mp hj with hj | hj
        · subst hj
          exact m2 j (List.mem_cons_self j ys)
        · rcases List.mem_cons.mp hj with hj | hj
          · subst hj
            exact le_trans (not_lt.mp hxy) (m2 x (List.mem_cons_self x ys))
          · exact m2 j (List.mem_cons_of_mem x hj)
      · intro j hj hlt
        rcases List.mem_cons.mp hj with hj | hj
        · subst hj
          exact m3 j (List.mem_cons_self j ys) hlt
        · rcases List.mem_cons.mp hj with hj | hj
          · subst hj
            rcases List.mem_cons.mp m1 with hm | hm
            · rw [hm] at hlt
              exact absurd hxy2 (not_lt.mpr (le_of_lt hlt))
            · have hxr : x < ys.foldl (fun best j =>
                  if (st.get best).weight < (st.get j).weight then j else best) x :=
                (List.sorted_cons.mp hsx).1 _ hm
              exact lt_of_le_of_lt (not_lt.mp hxy) (m3 x (List.mem_cons_self x ys) hxr)
          · exact m3 j (List.mem_cons_of_mem x hj) hlt

theorem highWeightTarget_spec (s : Settings) (st : TrafficData) (t : Fin 4)
    (h : highWeightTarget s st = some t) :
    s.weight_threshold < (st.get t).weight ∧
    (∀ j : Fin 4, s.weight_threshold < (st.get j).weight →
      (st.get j).weight ≤ (st.get t).weight) ∧
    (∀ j : Fin 4, j < t → s.weight_threshold < (st.get j).weight →
      (st.get j).weight < (st.get t).weight) := by
  simp only [highWeightTarget] at h
  rcases hf : ([0, 1, 2, 3] : List (Fin 4)).filter
      (fun i => decide (s.weight_threshold < (st.get i).weight)) with _ | ⟨x, xs⟩
  · rw [hf] at h
    simp at h
  · rw [hf] at h
    dsimp only at h
    rw [Option.some_inj] at h
    have hsorted : (x :: xs).Sorted (· < ·) := by
      rw [← hf]
      exact List.Pairwise.filter _ (by decide)
    obtain ⟨m1, m2, m3⟩ := foldl_weight_max st xs x hsorted
    rw [h] at m1 m2 m3
    have hmemt : t ∈ ([0, 1, 2, 3] : List (Fin 4)).filter
        (fun i => decide (s.weight_threshold < (st.get i).weight)) := by
      rw [hf]; exact m1
    refine ⟨of_decide_eq_true (List.mem_filter.mp hmemt).2, ?_, ?_⟩
    · intro j hj
      refine m2 j ?_
      rw [← hf]
      exact List.mem_filter.mpr ⟨fin4_mem_scan_list j, decide_eq_true hj⟩
    · intro j hjt hj
      refine m3 j ?_ hjt
      rw [← hf]
      exact List.mem_filter.mpr ⟨fin4_mem_scan_list j, decide_eq_true hj⟩

/-- C5: in a tick with no emergency, weight preemption triggers only on
weights strictly above `weight_threshold` (with threshold 6, a lane at
weight 6 does not trigger it, one at 6.01 does); when it triggers, the
selected target has maximal weight among the lanes, with ties broken in
favour of the first lane in fixed order; and the tick is exactly forcing
toward that target (or exactly normal rotation when no lane qualifies). -/
theorem weight_threshold_strict (s : Settings) (st : TrafficData)
    (hne : ∀ i : Fin 4, (st.get i).emergency = false) :
    ((∀ i : Fin 4, (st.get i).weight ≤ s.weight_threshold) →
      update_traffic_lights s st =
        normalRotation s (transitionPhase s (decrementPhase s st))) ∧
    (∀ t : Fin 4, highWeightTarget s st = some t →
      update_traffic_lights s st =
        applyForcing s.yellow_duration t (transitionPhase s (decrementPhase s st)) ∧
      s.weight_threshold < (st.get t).weight ∧
      (∀ j : Fin 4, s.weight_threshold < (st.get j).weight →
        (st.get j).weight ≤ (st.get t).weight) ∧
      (∀ j : Fin 4, j < t → s.weight_threshold < (st.get j).weight →
        (st.get j).weight < (st.get t).weight)) ∧
    highWeightTarget initialSettings thresholdEqState = none ∧
    highWeightTarget initialSettings thresholdOverState = some 1 := by
  have hemid : firstEmergencyLane (transitionPhase s (decrementPhase s st)) = none :=
    firstEmergencyLane_eq_none _ (fun j => by rw [midState_emergency]; exact hne j)
  have hwmid : highWeightTarget s (transitionPhase s (decrementPhase s st)) =
      highWeightTarget s st :=
    highWeightTarget_congr s _ _ (fun i => midState_weight s st i)
  refine ⟨fun h => ?_, fun t ht => ?_, by decide, by decide⟩
  · unfold update_traffic_lights
    simp only [hemid, hwmid, highWeightTarget_eq_none_of_le s st h]
  · obtain ⟨b1, b2, b3⟩ := highWeightTarget_spec s st t ht
    refine ⟨?_, b1, b2, b3⟩
    unfold update_traffic_lights
    simp only [hemid, hwmid, ht]

theorem weight_threshold_strict_witness :
    update_traffic_lights initialSettings thresholdOverState =
      applyForcing initialSettings.yellow_duration 1
        (transitionPhase initialSettings (decrementPhase initialSettings
          thresholdOverState)) :=
  ((weight_threshold_strict initialSettings thresholdOverState (by decide)).2.1 1
    (by decide)).1

/-- C4: in a tick where some lane has its emergency flag set, the target is
the first such lane in fixed order, the whole tick is exactly the forcing
pass applied after timer decrement and transition resolution (weight
preemption and normal rotation are skipped), and the forcing pass drives
the target toward green and every other lane toward red exactly as the
per-case equations state. -/
theorem emergency_first_lane_forcing (s : Settings) (st : TrafficData) (e : Fin 4)
    (he : (st.get e).emergency = true)
    (hb : ∀ j : Fin 4, j < e → (st.get j).emergency = false) :
    (update_traffic_lights s st =
      applyForcing s.yellow_duration e (transitionPhase s (decrementPhase s st))) ∧
    (∀ i : Fin 4, (update_traffic_lights s st).get i =
      forceLane s.yellow_duration e i
        ((transitionPhase s (decrementPhase s st)).get i)) ∧
    (∀ i : Fin 4, ∀ l : Lane,
      (i = e →
        (l.light = Light.red →
          forceLane s.yellow_duration e i l =
            { l with light := Light.yellow, next_state := some Light.green,
                     remaining_time := s.yellow_duration }) ∧
        (l.light = Light.yellow →
          forceLane s.yellow_duration e i l =
            { l with next_state := some Light.green }) ∧
        (l.light = Light.green → forceLane s.yellow_duration e i l = l)) ∧
      (i ≠ e →
        (l.light = Light.green →
          forceLane s.yellow_duration e i l =
            { l with light := Light.yellow, next_state := some Light.red,
                     remaining_time := s.yellow_duration }) ∧
        (l.light = Light.yellow → l.next_state ≠ some Light.red →
          forceLane s.yellow_duration e i l =
            { l with next_state := some Light.red }) ∧
        (l.light = Light.yellow → l.next_state = some Light.red →
          forceLane s.yellow_duration e i l = l) ∧
        (l.light = Light.red → forceLane s.yellow_duration e i l = l))) := by
  have hmide : firstEmergencyLane (transitionPhase s (decrementPhase s st)) = some e := by
    apply firstEmergencyLane_eq_some
    · rw [midState_emergency]; exact he
    · intro j hj; rw [midState_emergency]; exact hb j hj
  have h1 : update_traffic_lights s st =
      applyForcing s.yellow_duration e (transitionPhase s (decrementPhase s st)) := by
    unfold update_traffic_lights
    simp only [hmide]
  refine ⟨h1, fun i => ?_, fun i l => ⟨fun hie => ⟨fun hc => ?_, fun hc => ?_, fun hc => ?_⟩,
    fun hie => ⟨fun hc => ?_, fun hc hn => ?_, fun hc hn => ?_, fun hc => ?_⟩⟩⟩
  · rw [h1, applyForcing_get]
  all_goals simp [forceLane, hie, hc]
  · simp [hn]
  · simp [hn]

theorem noEmergency_tick (s : Settings) (st : TrafficData) (h : NoEmergency st) :
    NoEmergency (update_traffic_lights s st) := by
  intro i
  rw [update_traffic_lights_emergency]
  exact h i

theorem lowWeight_tick (s : Settings) (st : TrafficData) (h : LowWeight s st) :
    LowWeight s (update_traffic_lights s st) := by
  intro i
  rw [update_traffic_lights_weight]
  exact h i

theorem noEmergency_iter (s : Settings) (st : TrafficData) (n : ℕ)
    (h : NoEmergency st) : NoEmergency ((update_traffic_lights s)^[n] st) := by
  induction n generalizing st with
  | zero => exact h
  | succ n ih =>
    rw [Function.iterate_succ_apply]
    exact ih _ (noEmergency_tick s st h)

theorem lowWeight_iter (s : Settings) (st : TrafficData) (n : ℕ)
    (h : LowWeight s st) : LowWeight s ((update_traffic_lights s)^[n] st) := by
  induction n generalizing st with
  | zero => exact h
  | succ n ih =>
    rw [Function.iterate_succ_apply]
    exact ih _ (lowWeight_tick s st h)

/-- With no emergency and no qualifying weight, the tick is exactly the
normal-rotation block after the two loops. -/
theorem tick_eq_normal (s : Settings) (st : TrafficData)
    (hne : NoEmergency st) (hlw : LowWeight s st) :
    update_traffic_lights s st =
      normalRotation s (transitionPhase s (decrementPhase s st)) := by
  have hemid : firstEmergencyLane (transitionPhase s (decrementPhase s st)) = none :=
    firstEmergencyLane_eq_none _ (fun j => by rw [midState_emergency]; exact hne j)
  have hw : highWeightTarget s (transitionPhase s (decrementPhase s st)) = none := by
    rw [highWeightTarget_congr s _ st (fun i => midState_weight s st i)]
    exact highWeightTarget_eq_none_of_le s st hlw
  unfold update_traffic_lights
  simp only [hemid, hw]

/-- A lane with no pending state passes the transition loop unchanged; the
decrement loop only touched its timer. -/
theorem mid_get_keep (s : Settings) (st : TrafficData) (i : Fin 4)
    (hn : (st.get i).next_state = none) :
    ∃ rr, (transitionPhase s (decrementPhase s st)).get i =
      laneDecremented (st.get i) rr := by
  obtain ⟨r2, h2⟩ := transitionPhase_get s (decrementPhase s st) i
  obtain ⟨r1, h1⟩ := decrementPhase_get s st i
  refine ⟨r1, ?_⟩
  rw [h2, h1]
  have hnn : (laneDecremented (st.get i) r1).next_state = none := by
    rw [laneDecremented_next]; exact hn
  simp [laneStepped, hnn]

/-- A lane with a pending state and at least two seconds left just counts
down during the tick's two loops. -/
theorem mid_get_pending_pos (s : Settings) (st : TrafficData) (i : Fin 4)
    (ns : Light) (hn : (st.get i).next_state = some ns)
    (hr : 2 ≤ (st.get i).remaining_time) :
    (transitionPhase s (decrementPhase s st)).get i =
      { st.get i with remaining_time := (st.get i).remaining_time - 1 } := by
  obtain ⟨r2, h2⟩ := transitionPhase_get s (decrementPhase s st) i
  obtain ⟨r1, h1⟩ := decrementPhase_get s st i
  have hd : (decrementPhase s st).get i =
      { st.get i with remaining_time := (st.get i).remaining_time - 1 } := by
    rw [h1]
    unfold laneDecremented
    rw [if_pos (by omega)]
  rw [h2, hd]
  unfold laneStepped
  simp only [hn]
  split_ifs with hcond
  · exfalso
    simp only at hcond
    omega
  · rfl

/-- A lane with a pending state and exactly one second left resolves its
transition inside the tick: it shows the pending light, its pending state
is consumed, and a lane going green is reseeded with `cycle_duration`. -/
theorem mid_get_pending_expire (s : Settings) (st : TrafficData) (i : Fin 4)
    (ns : Light) (hn : (st.get i).next_state = some ns)
    (hr : (st.get i).remaining_time = 1) :
    ((transitionPhase s (decrementPhase s st)).get i).light = ns ∧
    ((transitionPhase s (decrementPhase s st)).get i).next_state = none ∧
    (ns = Light.green →
      ((transitionPhase s (decrementPhase s st)).get i).remaining_time =
        s.cycle_duration) := by
  obtain ⟨r2, h2⟩ := transitionPhase_get s (decrementPhase s st) i
  obtain ⟨r1, h1⟩ := decrementPhase_get s st i
  have hd : (decrementPhase s st).get i =
      { st.get i with remaining_time := (st.get i).remaining_time - 1 } := by
    rw [h1]
    unfold laneDecremented
    rw [if_pos (by omega)]
  rw [h2, hd]
  unfold laneStepped
  simp only [hn]
  split_ifs with hcond
  · cases ns <;> simp
  · exfalso
    simp only at hcond
    omega

theorem normalRotation_of_yellow (s : Settings) (st : TrafficData) (j : Fin 4)
    (hj : (st.get j).light = Light.yellow) : normalRotation s st = st := by
  unfold normalRotation
  split_ifs with h
  · rfl
  · exfalso
    apply h
    fin_cases j
    · exact Or.inl hj
    · exact Or.inr (Or.inl hj)
    · exact Or.inr (Or.inr (Or.inl hj))
    · exact Or.inr (Or.inr (Or.inr hj))

theorem rot_tick_countdown (s : Settings) (st : TrafficData) (k : Fin 4) (r : Int)
    (hr : 2 ≤ r) (hst : RotState k r st) (hne : NoEmergency st) (hlw : LowWeight s st) :
    RotState k (r - 1) (update_traffic_lights s st) := by
  obtain ⟨hkl, hkr, hkn, hoth⟩ := hst
  rw [tick_eq_normal s st hne hlw]
  have hmidk : (transitionPhase s (decrementPhase s st)).get k =
      { st.get k with remaining_time := (st.get k).remaining_time - 1 } := by
    obtain ⟨rr, hk⟩ := mid_get_keep s st k hkn
    rw [hk]
    unfold laneDecremented
    rw [if_pos (by omega)]
  have hmido : ∀ j : Fin 4, j ≠ k →
      ((transitionPhase s (decrementPhase s st)).get j).light = Light.red ∧
      ((transitionPhase s (decrementPhase s st)).get j).next_state = none := by
    intro j hj
    obtain ⟨rr, hgj⟩ := mid_get_keep s st j (hoth j hj).2
    rw [hgj, laneDecremented_light, laneDecremented_next]
    exact hoth j hj
  have hnoy : ∀ j : Fin 4,
      ((transitionPhase s (decrementPhase s st)).get j).light ≠ Light.yellow := by
    intro j
    by_cases hj : j = k
    · subst hj; rw [hmidk]; simp [hkl]
    · rw [(hmido j hj).1]; simp
  have hcond : ¬(((transitionPhase s (decrementPhase s st)).get 0).light = Light.yellow ∨
      ((transitionPhase s (decrementPhase s st)).get 1).light = Light.yellow ∨
      ((transitionPhase s (decrementPhase s st)).get 2).light = Light.yellow ∨
      ((transitionPhase s (decrementPhase s st)).get 3).light = Light.yellow) := by
    intro hcase
    rcases hcase with h | h | h | h
    exacts [hnoy 0 h, hnoy 1 h, hnoy 2 h, hnoy 3 h]
  have hfg : firstGreenLane (transitionPhase s (decrementPhase s st)) = some k := by
    apply firstGreenLane_eq_some
    · rw [hmidk]; simp [hkl]
    · intro j hj; rw [(hmido j (Fin.ne_of_lt hj)).1]; simp
  unfold normalRotation
  rw [if_neg hcond, hfg]
  dsimp only
  rw [if_pos (by rw [hmidk]; show 0 < (st.get k).remaining_time - 1; omega)]
  refine ⟨?_, ?_, ?_, fun j hj => hmido j hj⟩
  · rw [hmidk]; simp [hkl]
  · rw [hmidk]; show (st.get k).remaining_time - 1 = r - 1; omega
  · rw [hmidk]; simp [hkn]

theorem rot_tick_expire (s : Settings) (st : TrafficData) (k : Fin 4)
    (hst : RotState k 1 st) (hne : NoEmergency st) (hlw : LowWeight s st) :
    HandoffState k s.yellow_duration (update_traffic_lights s st) := by
  obtain ⟨hkl, hkr, hkn, hoth⟩ := hst
  rw [tick_eq_normal s st hne hlw]
  have hmidk : (transitionPhase s (decrementPhase s st)).get k =
      { st.get k with remaining_time := (st.get k).remaining_time - 1 } := by
    obtain ⟨rr, hk⟩ := mid_get_keep s st k hkn
    rw [hk]
    unfold laneDecremented
    rw [if_pos (by omega)]
  have hmido : ∀ j : Fin 4, j ≠ k →
      ((transitionPhase s (decrementPhase s st)).get j).light = Light.red ∧
      ((transitionPhase s (decrementPhase s st)).get j).next_state = none := by
    intro j hj
    obtain ⟨rr, hgj⟩ := mid_get_keep s st j (hoth j hj).2
    rw [hgj, laneDecremented_light, laneDecremented_next]
    exact hoth j hj
  have hnoy : ∀ j : Fin 4,
      ((transitionPhase s (decrementPhase s st)).get j).light ≠ Light.yellow := by
    intro j
    by_cases hj : j = k
    · subst hj; rw [hmidk]; simp [hkl]
    · rw [(hmido j hj).1]; simp
  have hcond : ¬(((transitionPhase s (decrementPhase s st)).get 0).light = Light.yellow ∨
      ((transitionPhase s (decrementPhase s st)).get 1).light = Light.yellow ∨
      ((transitionPhase s (decrementPhase s st)).get 2).light = Light.yellow ∨
      ((transitionPhase s (decrementPhase s st)).get 3).light = Light.yellow) := by
    intro hcase
    rcases hcase with h | h | h | h
    exacts [hnoy 0 h, hnoy 1 h, hnoy 2 h, hnoy 3 h]
  have hfg : firstGreenLane (transitionPhase s (decrementPhase s st)) = some k := by
    apply firstGreenLane_eq_some
    · rw [hmidk]; simp [hkl]
    · intro j hj; rw [(hmido j (Fin.ne_of_lt hj)).1]; simp
  unfold normalRotation
  rw [if_neg hcond, hfg]
  dsimp only
  rw [if_neg (by rw [hmidk]; show ¬(0 < (st.get k).remaining_time - 1); omega)]
  have hne1 : k ≠ k + 1 := (fin4_add_one_ne k).symm
  refine ⟨?_, ?_, ?_, ?_, ?_, ?_, fun j hj hj2 => ?_⟩
  · simp [TrafficData.get_set, hne1]
  · simp [TrafficData.get_set, hne1]
  · simp [TrafficData.get_set, hne1]
  · simp [TrafficData.get_set]
  · simp [TrafficData.get_set]
  · simp [TrafficData.get_set]
  · simp only [TrafficData.get_set, if_neg hj2, if_neg hj]
    exact hmido j hj

theorem handoff_tick_countdown (s : Settings) (st : TrafficData) (k : Fin 4)
    (y : Int) (hy2 : 2 ≤ y) (hst : HandoffState k y st)
    (hne : NoEmergency st) (hlw : LowWeight s st) :
    HandoffState k (y - 1) (update_traffic_lights s st) := by
  obtain ⟨h1, h2, h3, h4, h5, h6, hoth⟩ := hst
  rw [tick_eq_normal s st hne hlw]
  have hmk : (transitionPhase s (decrementPhase s st)).get k =
      { st.get k with remaining_time := (st.get k).remaining_time - 1 } :=
    mid_get_pending_pos s st k Light.red h3 (by omega)
  have hmk1 : (transitionPhase s (decrementPhase s st)).get (k + 1) =
      { st.get (k + 1) with remaining_time := (st.get (k + 1)).remaining_time - 1 } :=
    mid_get_pending_pos s st (k + 1) Light.green h6 (by omega)
  have hmido : ∀ j : Fin 4, j ≠ k → j ≠ k + 1 →
      ((transitionPhase s (decrementPhase s st)).get j).light = Light.red ∧
      ((transitionPhase s (decrementPhase s st)).get j).next_state = none := by
    intro j hj hj2
    obtain ⟨rr, hgj⟩ := mid_get_keep s st j (hoth j hj hj2).2
    rw [hgj, laneDecremented_light, laneDecremented_next]
    exact hoth j hj hj2
  have hky : ((transitionPhase s (decrementPhase s st)).get k).light = Light.yellow := by
    rw [hmk]; simp [h1]
  rw [normalRotation_of_yellow s _ k hky]
  refine ⟨?_, ?_, ?_, ?_, ?_, ?_, fun j hj hj2 => hmido j hj hj2⟩
  · rw [hmk]; simp [h1]
  · rw [hmk]; show (st.get k).remaining_time - 1 = y - 1; omega
  · rw [hmk]; simp [h3]
  · rw [hmk1]; simp [h4]
  · rw [hmk1]; show (st.get (k + 1)).remaining_time - 1 = y - 1; omega
  · rw [hmk1]; simp [h6]

theorem handoff_tick_expire (s : Settings) (st : TrafficData) (k : Fin 4)
    (hC : 1 ≤ s.cycle_duration) (hst : HandoffState k 1 st)
    (hne : NoEmergency st) (hlw : LowWeight s st) :
    RotState (k + 1) s.cycle_duration (update_traffic_lights s st) := by
  obtain ⟨h1, h2, h3, h4, h5, h6, hoth⟩ := hst
  rw [tick_eq_normal s st hne hlw]
  have hmk := mid_get_pending_expire s st k Light.red h3 h2
  have hmk1 := mid_get_pending_expire s st (k + 1) Light.green h6 h5
  have hmido : ∀ j : Fin 4, j ≠ k → j ≠ k + 1 →
      ((transitionPhase s (decrementPhase s st)).get j).light = Light.red ∧
      ((transitionPhase s (decrementPhase s st)).get j).next_state = none := by
    intro j hj hj2
    obtain ⟨rr, hgj⟩ := mid_get_keep s st j (hoth j hj hj2).2
    rw [hgj, laneDecremented_light, laneDecremented_next]
    exact hoth j hj hj2
  have hnoy : ∀ j : Fin 4,
      ((transitionPhase s (decrementPhase s st)).get j).light ≠ Light.yellow := by
    intro j
    by_cases hj1 : j = k
    · subst hj1; rw [hmk.1]; simp
    · by_cases hj2 : j = k + 1
      · subst hj2; rw [hmk1.1]; simp
      · rw [(hmido j hj1 hj2).1]; simp
  have hcond : ¬(((transitionPhase s (decrementPhase s st)).get 0).light = Light.yellow ∨
      ((transitionPhase s (decrementPhase s st)).get 1).light = Light.yellow ∨
      ((transitionPhase s (decrementPhase s st)).get 2).light = Light.yellow ∨
      ((transitionPhase s (decrementPhase s st)).get 3).light = Light.yellow) := by
    intro hcase
    rcases hcase with h | h | h | h
    exacts [hnoy 0 h, hnoy 1 h, hnoy 2 h, hnoy 3 h]
  have hfg : firstGreenLane (transitionPhase s (decrementPhase s st)) = some (k + 1) := by
    apply firstGreenLane_eq_some
    · exact hmk1.1
    · intro j hj
      have hjne : j ≠ k + 1 := Fin.ne_of_lt hj
      by_cases hjk : j = k
      · subst hjk; rw [hmk.1]; simp
      · rw [(hmido j hjk hjne).1]; simp
  unfold normalRotation
  rw [if_neg hcond, hfg]
  dsimp only
  rw [if_pos (by rw [hmk1.2.2 rfl]; omega)]
  refine ⟨hmk1.1, hmk1.2.2 rfl, hmk1.2.1, fun j hj => ?_⟩
  by_cases hjk : j = k
  · subst hjk; exact ⟨hmk.1, hmk.2.1⟩
  · exact hmido j hjk hj

theorem rot_countdown_to_one (s : Settings) (k : Fin 4) :
    ∀ (c : ℕ) (st : TrafficData), 1 ≤ c → RotState k (c : Int) st →
    NoEmergency st → LowWeight s st →
    RotState k 1 ((update_traffic_lights s)^[c - 1] st) := by
  intro c
  induction c with
  | zero => intro st h; exact absurd h (by omega)
  | succ n ih =>
    intro st _ hst hne hlw
    by_cases hn0 : n = 0
    · subst hn0
      simpa using hst
    · have hn1 : 1 ≤ n := by omega
      have h2 : (2 : Int) ≤ ((n + 1 : ℕ) : Int) := by exact_mod_cast Nat.succ_le_succ hn1
      have hcd := rot_tick_countdown s st k ((n + 1 : ℕ) : Int) h2 hst hne hlw
      have hcast : ((n + 1 : ℕ) : Int) - 1 = (n : Int) := by push_cast; ring
      rw [hcast] at hcd
      have hres := ih (update_traffic_lights s st) hn1 hcd
        (noEmergency_tick s st hne) (lowWeight_tick s st hlw)
      rw [← Function.iterate_succ_apply] at hres
      rw [show Nat.succ (n - 1) = n + 1 - 1 from by omega] at hres
      exact hres

theorem handoff_countdown_to_one (s : Settings) (k : Fin 4) :
    ∀ (y : ℕ) (st : TrafficData), 1 ≤ y → HandoffState k (y : Int) st →
    NoEmergency st → LowWeight s st →
    HandoffState k 1 ((update_traffic_lights s)^[y - 1] st) := by
  intro y
  induction y with
  | zero => intro st h; exact absurd h (by omega)
  | succ n ih =>
    intro st _ hst hne hlw
    by_cases hn0 : n = 0
    · subst hn0
      simpa using hst
    · have hn1 : 1 ≤ n := by omega
      have h2 : (2 : Int) ≤ ((n + 1 : ℕ) : Int) := by exact_mod_cast Nat.succ_le_succ hn1
      have hcd := handoff_tick_countdown s st k ((n + 1 : ℕ) : Int) h2 hst hne hlw
      have hcast : ((n + 1 : ℕ) : Int) - 1 = (n : Int) := by push_cast; ring
      rw [hcast] at hcd
      have hres := ih (update_traffic_lights s st) hn1 hcd
        (noEmergency_tick s st hne) (lowWeight_tick s st hlw)
      rw [← Function.iterate_succ_apply] at hres
      rw [show Nat.succ (n - 1) = n + 1 - 1 from by omega] at hres
      exact hres

/-- One full slot of the rotation: from lane `k` green holding a full
cycle, after `c + y` ticks lane `k + 1` is green holding a full cycle. -/
theorem rot_segment (s : Settings) (k : Fin 4) (c y : ℕ) (hc : 1 ≤ c) (hy : 1 ≤ y)
    (hC : s.cycle_duration = (c : Int)) (hY : s.yellow_duration = (y : Int))
    (st : TrafficData) (hst : RotState k (c : Int) st) (hne : NoEmergency st)
    (hlw : LowWeight s st) :
    RotState (k + 1) (c : Int) ((update_traffic_lights s)^[c + y] st) := by
  have s1 := rot_countdown_to_one s k c st hc hst hne hlw
  have hne1 := noEmergency_iter s st (c - 1) hne
  have hlw1 := lowWeight_iter s st (c - 1) hlw
  have s2 := rot_tick_expire s _ k s1 hne1 hlw1
  rw [hY] at s2
  have hne2 := noEmergency_tick s _ hne1
  have hlw2 := lowWeight_tick s _ hlw1
  have s3 := handoff_countdown_to_one s k y _ hy s2 hne2 hlw2
  have hne3 := noEmergency_iter s _ (y - 1) hne2
  have hlw3 := lowWeight_iter s _ (y - 1) hlw2
  have s4 := handoff_tick_expire s _ k
    (by rw [hC]; exact_mod_cast hc) s3 hne3 hlw3
  rw [hC] at s4
  have hiter : update_traffic_lights s ((update_traffic_lights s)^[y - 1]
      (update_traffic_lights s ((update_traffic_lights s)^[c - 1] st))) =
      (update_traffic_lights s)^[c + y] st := by
    rw [← Function.iterate_succ_apply' (update_traffic_lights s) (c - 1) st]
    rw [show Nat.succ (c - 1) = c from by omega]
    rw [← Function.iterate_succ_apply' (update_traffic_lights s) (y - 1)
      ((update_traffic_lights s)^[c] st)]
    rw [show Nat.succ (y - 1) = y from by omega]
    rw [← Function.iterate_add_apply (update_traffic_lights s) y c st]
    rw [show y + c = c + y from by ring]
  rw [hiter] at s4
  exact s4

/-- C2: with every emergency flag clear and every weight at or below the
threshold, settings `cycle_duration = c ≥ 1` and `yellow_duration = y ≥ 1`,
starting from the rotation state in which lane `k` is green holding a full
cycle, after exactly `4 (c + y)` ticks lane `k` is green again with
`remaining_time = c`. -/
theorem rotation_closure (s : Settings) (st : TrafficData) (k : Fin 4) (c y : ℕ)
    (hc : 1 ≤ c) (hy : 1 ≤ y)
    (hC : s.cycle_duration = (c : Int)) (hY : s.yellow_duration = (y : Int))
    (hst : RotState k (c : Int) st) (hne : NoEmergency st) (hlw : LowWeight s st) :
    RotState k (c : Int) ((update_traffic_lights s)^[4 * (c + y)] st) := by
  have hneA := noEmergency_iter s st (c + y) hne
  have hlwA := lowWeight_iter s st (c + y) hlw
  have hneB := noEmergency_iter s _ (c + y) hneA
  have hlwB := lowWeight_iter s _ (c + y) hlwA
  have hneC := noEmergency_iter s _ (c + y) hneB
  have hlwC := lowWeight_iter s _ (c + y) hlwB
  have s1 := rot_segment s k c y hc hy hC hY st hst hne hlw
  have s2 := rot_segment s (k + 1) c y hc hy hC hY _ s1 hneA hlwA
  have s3 := rot_segment s (k + 1 + 1) c y hc hy hC hY _ s2 hneB hlwB
  have s4 := rot_segment s (k + 1 + 1 + 1) c y hc hy hC hY _ s3 hneC hlwC
  rw [show k + 1 + 1 + 1 + 1 = k from by fin_cases k <;> decide] at s4
  have hiter : (update_traffic_lights s)^[c + y] ((update_traffic_lights s)^[c + y]
      ((update_traffic_lights s)^[c + y] ((update_traffic_lights s)^[c + y] st))) =
      (update_traffic_lights s)^[4 * (c + y)] st := by
    rw [← Function.iterate_add_apply, ← Function.iterate_add_apply,
      ← Function.iterate_add_apply]
    rw [show c + y + (c + y) + (c + y) + (c + y) = 4 * (c + y) from by ring]
  rw [hiter] at s4
  exact s4

theorem rotation_closure_witness :
    RotState 0 ((1 : ℕ) : Int)
      ((update_traffic_lights unitSettings)^[4 * (1 + 1)] unitRotStart) :=
  rotation_closure unitSettings unitRotStart 0 1 1 (by decide) (by decide)
    rfl rfl (by unfold RotState; decide) (by unfold NoEmergency; decide)
    (by unfold LowWeight; decide)

/-- C3 counterexample: in the state where lane1 is red with its emergency
flag set (and no other emergency) while lane4 is green, with
`yellow_duration = 3`, after 3 ticks lane1 is still not green — preemption
needs a full extra tick beyond the yellow duration. -/
theorem emergency_latency_counterexample :
    initialSettings.yellow_duration = 3 ∧
    (emergencyRedState.get 0).light = Light.red ∧
    (emergencyRedState.get 0).emergency = true ∧
    (∀ j : Fin 4, j ≠ 0 → (emergencyRedState.get j).emergency = false) ∧
    (emergencyRedState.get 3).light = Light.green ∧
    (((update_traffic_lights initialSettings)^[3] emergencyRedState).get 0).light ≠
      Light.green := by
  refine ⟨rfl, rfl, rfl, by decide, rfl, by decide⟩

theorem forceLane_other_cases (yv : Int) (t j : Fin 4) (l : Lane) (hj : j ≠ t)
    (hred : l.light = Light.red → l.next_state = none) :
    (forceLane yv t j l).light ≠ Light.green ∧
    ((forceLane yv t j l).light = Light.yellow →
      (forceLane yv t j l).next_state = some Light.red) ∧
    ((forceLane yv t j l).light = Light.red →
      (forceLane yv t j l).next_state = none) ∧
    (forceLane yv t j l).emergency = l.emergency := by
  unfold forceLane
  rw [if_neg hj]
  by_cases h1 : l.light = Light.green
  · rw [if_pos h1]
    simp
  · rw [if_neg h1]
    by_cases h2 : l.light = Light.yellow ∧ l.next_state ≠ some Light.red
    · rw [if_pos h2]
      simp [h2.1]
    · rw [if_neg h2]
      refine ⟨h1, fun hy3 => ?_, hred, rfl⟩
      exact not_not.mp (not_and.mp h2 hy3)

theorem mid_other_emerg (s : Settings) (st : TrafficData) (j : Fin 4)
    (hng : (st.get j).light ≠ Light.green)
    (hyj : (st.get j).light = Light.yellow → (st.get j).next_state = some Light.red)
    (hrj : (st.get j).light = Light.red → (st.get j).next_state = none) :
    ((transitionPhase s (decrementPhase s st)).get j).light ≠ Light.green ∧
    (((transitionPhase s (decrementPhase s st)).get j).light = Light.yellow →
      ((transitionPhase s (decrementPhase s st)).get j).next_state = some Light.red) ∧
    (((transitionPhase s (decrementPhase s st)).get j).light = Light.red →
      ((transitionPhase s (decrementPhase s st)).get j).next_state = none) := by
  obtain ⟨r2, h2⟩ := transitionPhase_get s (decrementPhase s st) j
  obtain ⟨r1, h1⟩ := decrementPhase_get s st j
  rw [h2, h1]
  rcases laneStepped_cases s (laneDecremented (st.get j) r1) r2 with
    ⟨hl, hn⟩ | ⟨ns, hN, hT, hl, hn⟩
  · rw [hl, hn, laneDecremented_light, laneDecremented_next]
    exact ⟨hng, hyj, hrj⟩
  · rw [laneDecremented_next] at hN
    have hyellow : (st.get j).light = Light.yellow := by
      rcases hLl : (st.get j).light with _ | _ | _
      · rw [hrj hLl] at hN
        exact absurd hN (by simp)
      · rfl
      · exact absurd hLl hng
    have hns : ns = Light.red := by
      rw [hyj hyellow] at hN
      exact (Option.some_inj.mp hN).symm
    rw [hl, hn, hns]
    refine ⟨by simp, by simp, fun _ => rfl⟩

theorem emerg_setup (s : Settings) (st : TrafficData) (m : Fin 4)
    (hG : GoodState st)
    (hm : (st.get m).light = Light.red)
    (hme : (st.get m).emergency = true)
    (hoe : ∀ j : Fin 4, j ≠ m → (st.get j).emergency = false) :
    EmergHold m s.yellow_duration (update_traffic_lights s st) := by
  have hmn : (st.get m).next_state = none := by
    by_contra hc
    have h := hG.2.1 m hc
    rw [hm] at h
    exact absurd h (by simp)
  have hGmid : GoodState (transitionPhase s (decrementPhase s st)) :=
    goodState_transitionPhase _ _ (goodState_decrementPhase _ _ hG)
  have hfe : firstEmergencyLane (transitionPhase s (decrementPhase s st)) = some m :=
    firstEmergencyLane_eq_some _ m (by rw [midState_emergency]; exact hme)
      (fun j hj => by rw [midState_emergency]; exact hoe j (Fin.ne_of_lt hj))
  have htick : update_traffic_lights s st =
      applyForcing s.yellow_duration m (transitionPhase s (decrementPhase s st)) := by
    unfold update_traffic_lights
    simp only [hfe]
  have hmidm : ((transitionPhase s (decrementPhase s st)).get m).light = Light.red ∧
      ((transitionPhase s (decrementPhase s st)).get m).next_state = none := by
    obtain ⟨rr, hk⟩ := mid_get_keep s st m hmn
    rw [hk, laneDecremented_light, laneDecremented_next]
    exact ⟨hm, hmn⟩
  have hmidred : ∀ j : Fin 4,
      ((transitionPhase s (decrementPhase s st)).get j).light = Light.red →
      ((transitionPhase s (decrementPhase s st)).get j).next_state = none := by
    intro j hRl
    by_contra hc
    have h := hGmid.2.1 j hc
    rw [hRl] at h
    exact absurd h (by simp)
  rw [htick]
  refine ⟨?_, ?_, ?_, ?_, fun j hj => ?_⟩
  · rw [applyForcing_get]; unfold forceLane; simp [hmidm.1]
  · rw [applyForcing_get]; unfold forceLane; simp [hmidm.1]
  · rw [applyForcing_get]; unfold forceLane; simp [hmidm.1]
  · rw [applyForcing_get, forceLane_emergency, midState_emergency]; exact hme
  · obtain ⟨c1, c2, c3, c4⟩ := forceLane_other_cases s.yellow_duration m j
      ((transitionPhase s (decrementPhase s st)).get j) hj (hmidred j)
    refine ⟨?_, ?_, ?_, ?_⟩
    · rw [applyForcing_get, c4, midState_emergency]; exact hoe j hj
    · rw [applyForcing_get]; exact c1
    · rw [applyForcing_get]; exact c2
    · rw [applyForcing_get]; exact c3

theorem emerg_hold_tick (s : Settings) (st : TrafficData) (m : Fin 4) (r : Int)
    (h2r : 2 ≤ r) (hst : EmergHold m r st) :
    EmergHold m (r - 1) (update_traffic_lights s st) := by
  obtain ⟨h1, h2, h3, h4, hoth⟩ := hst
  have hfe : firstEmergencyLane (transitionPhase s (decrementPhase s st)) = some m :=
    firstEmergencyLane_eq_some _ m (by rw [midState_emergency]; exact h4)
      (fun j hj => by rw [midState_emergency]; exact (hoth j (Fin.ne_of_lt hj)).1)
  have htick : update_traffic_lights s st =
      applyForcing s.yellow_duration m (transitionPhase s (decrementPhase s st)) := by
    unfold update_traffic_lights
    simp only [hfe]
  have hmidm : (transitionPhase s (decrementPhase s st)).get m =
      { st.get m with remaining_time := (st.get m).remaining_time - 1 } :=
    mid_get_pending_pos s st m Light.green h3 (by omega)
  rw [htick]
  refine ⟨?_, ?_, ?_, ?_, fun j hj => ?_⟩
  · rw [applyForcing_get, hmidm]; unfold forceLane; simp [h1]
  · rw [applyForcing_get, hmidm]; unfold forceLane; simp [h1]
    omega
  · rw [applyForcing_get, hmidm]; unfold forceLane; simp [h1]
  · rw [applyForcing_get, forceLane_emergency, midState_emergency]; exact h4
  · have hmid3 := mid_other_emerg s st j (hoth j hj).2.1 (hoth j hj).2.2.1
      (hoth j hj).2.2.2
    obtain ⟨c1, c2, c3, c4⟩ := forceLane_other_cases s.yellow_duration m j
      ((transitionPhase s (decrementPhase s st)).get j) hj hmid3.2.2
    refine ⟨?_, ?_, ?_, ?_⟩
    · rw [applyForcing_get, c4, midState_emergency]; exact (hoth j hj).1
    · rw [applyForcing_get]; exact c1
    · rw [applyForcing_get]; exact c2
    · rw [applyForcing_get]; exact c3

theorem emerg_final_tick (s : Settings) (st : TrafficData) (m : Fin 4)
    (hst : EmergHold m 1 st) :
    ((update_traffic_lights s st).get m).light = Light.green ∧
    ∀ j : Fin 4, j ≠ m →
      (((update_traffic_lights s st).get j).light = Light.red ∨
       (((update_traffic_lights s st).get j).light = Light.yellow ∧
        ((update_traffic_lights s st).get j).next_state = some Light.red)) := by
  obtain ⟨h1, h2, h3, h4, hoth⟩ := hst
  have hfe : firstEmergencyLane (transitionPhase s (decrementPhase s st)) = some m :=
    firstEmergencyLane_eq_some _ m (by rw [midState_emergency]; exact h4)
      (fun j hj => by rw [midState_emergency]; exact (hoth j (Fin.ne_of_lt hj)).1)
  have htick : update_traffic_lights s st =
      applyForcing s.yellow_duration m (transitionPhase s (decrementPhase s st)) := by
    unfold update_traffic_lights
    simp only [hfe]
  have hmidm := mid_get_pending_expire s st m Light.green h3 h2
  rw [htick]
  constructor
  · rw [applyForcing_get]; unfold forceLane; simp [hmidm.1]
  · intro j hj
    have hmid3 := mid_other_emerg s st j (hoth j hj).2.1 (hoth j hj).2.2.1
      (hoth j hj).2.2.2
    obtain ⟨c1, c2, c3, c4⟩ := forceLane_other_cases s.yellow_duration m j
      ((transitionPhase s (decrementPhase s st)).get j) hj hmid3.2.2
    rw [applyForcing_get]
    rcases hL : (forceLane s.yellow_duration m j
        ((transitionPhase s (decrementPhase s st)).get j)).light with _ | _ | _
    · exact Or.inl rfl
    · exact Or.inr ⟨rfl, c2 hL⟩
    · exact absurd hL c1

theorem emerg_hold_to_one (s : Settings) (m : Fin 4) :
    ∀ (y : ℕ) (st : TrafficData), 1 ≤ y → EmergHold m (y : Int) st →
    EmergHold m 1 ((update_traffic_lights s)^[y - 1] st) := by
  intro y
  induction y with
  | zero => intro st h; exact absurd h (by omega)
  | succ n ih =>
    intro st _ hst
    by_cases hn0 : n = 0
    · subst hn0
      simpa using hst
    · have hn1 : 1 ≤ n := by omega
      have h2 : (2 : Int) ≤ ((n + 1 : ℕ) : Int) := by exact_mod_cast Nat.succ_le_succ hn1
      have hcd := emerg_hold_tick s st m ((n + 1 : ℕ) : Int) h2 hst
      have hcast : ((n + 1 : ℕ) : Int) - 1 = (n : Int) := by push_cast; ring
      rw [hcast] at hcd
      have hres := ih (update_traffic_lights s st) hn1 hcd
      rw [← Function.iterate_succ_apply] at hres
      rw [show Nat.succ (n - 1) = n + 1 - 1 from by omega] at hres
      exact hres

/-- C3 (amended): if lane `m` is red, another lane is green, `m`'s
emergency flag is the only one set, and the state is structurally sound,
then after `yellow_duration + 1` ticks — one tick to initiate preemption
plus the yellow interval — lane `m` is green, and at that point every other
lane is red or is yellow with a pending red. -/
theorem emergency_latency_amended (s : Settings) (st : TrafficData) (m g : Fin 4)
    (y : ℕ) (hy : 1 ≤ y) (hY : s.yellow_duration = (y : Int))
    (hG : GoodState st)
    (hm : (st.get m).light = Light.red)
    (hme : (st.get m).emergency = true)
    (hoe : ∀ j : Fin 4, j ≠ m → (st.get j).emergency = false)
    (hgm : g ≠ m) (hgl : (st.get g).light = Light.green) :
    (((update_traffic_lights s)^[y + 1] st).get m).light = Light.green ∧
    ∀ j : Fin 4, j ≠ m →
      ((((update_traffic_lights s)^[y + 1] st).get j).light = Light.red ∨
       ((((update_traffic_lights s)^[y + 1] st).get j).light = Light.yellow ∧
        (((update_traffic_lights s)^[y + 1] st).get j).next_state = some Light.red)) := by
  have s1 : EmergHold m (y : Int) (update_traffic_lights s st) := by
    have h := emerg_setup s st m hG hm hme hoe
    rw [hY] at h
    exact h
  have s2 := emerg_hold_to_one s m y (update_traffic_lights s st) hy s1
  have s3 := emerg_final_tick s _ m s2
  have hiter : (update_traffic_lights s)^[y + 1] st =
      update_traffic_lights s
        ((update_traffic_lights s)^[y - 1] (update_traffic_lights s st)) := by
    conv_lhs => rw [show y + 1 = 1 + ((y - 1) + 1) from by omega]
    rw [Function.iterate_add_apply, Function.iterate_one, Function.iterate_add_apply,
      Function.iterate_one]
  rw [hiter]
  exact s3

theorem emergency_latency_amended_witness :
    (((update_traffic_lights initialSettings)^[3 + 1] emergencyRedState).get 0).light =
      Light.green :=
  (emergency_latency_amended initialSettings emergencyRedState 0 3 3 (by decide) rfl
    (by unfold GoodState; decide) rfl rfl (by decide) (by decide) rfl).1

/-- C9 counterexample: a reachable state ends a tick with lane1's
`remaining_time = 0` and, because no lane is green during the emergency
hand-off, its recomputed wait is `0` again at the next tick — the lane sits
at zero across consecutive ticks.  Moreover the configuration interface
accepts negative durations, after which a tick leaves negative
`remaining_time` values in a reachable state. -/
theorem remaining_time_zero_counterexample :
    Reachable (c9State2, c9Settings) ∧
    (c9State2.get 0).remaining_time = 0 ∧
    ((update_traffic_lights c9Settings c9State2).get 0).remaining_time = 0 ∧
    Reachable
      (update_traffic_lights
        (update_settings initialTrafficData initialSettings negativeDurationRequest).2.1
        (update_settings initialTrafficData initialSettings negativeDurationRequest).1,
       (update_settings initialTrafficData initialSettings negativeDurationRequest).2.1) ∧
    ((update_traffic_lights
        (update_settings initialTrafficData initialSettings negativeDurationRequest).2.1
        (update_settings initialTrafficData initialSettings negativeDurationRequest).1).get
      1).remaining_time < 0 := by
  refine ⟨?_, by decide, by decide, ?_, by decide⟩
  · exact Reachable.tick
      (Reachable.observe 2 true 0 0 (Reachable.config c9Request Reachable.init))
  · exact Reachable.tick (Reachable.config negativeDurationRequest Reachable.init)

theorem calculate_red_time_nonneg (s : Settings) (st : TrafficData) (i : Fin 4)
    (h : NonNegState st) (hY : 0 ≤ s.yellow_duration) (hC : 0 ≤ s.cycle_duration) :
    0 ≤ calculate_red_time s st i := by
  unfold calculate_red_time
  cases hg : firstGreenLane st with
  | none => dsimp only; omega
  | some g =>
    have := h g
    dsimp only
    split_ifs <;> omega

theorem decrementStep_nonneg (s : Settings) (st : TrafficData) (i : Fin 4)
    (h : NonNegState st) (hY : 0 ≤ s.yellow_duration) (hC : 0 ≤ s.cycle_duration) :
    NonNegState (decrementStep s st i) := by
  intro j
  rw [decrementStep_get]
  split_ifs with hji
  · unfold laneDecremented
    split_ifs with hp hr
    · show 0 ≤ (st.get i).remaining_time - 1
      omega
    · show 0 ≤ calculate_red_time s st i
      exact calculate_red_time_nonneg s st i h hY hC
    · exact h i
  · exact h j

theorem decrementPhase_nonneg (s : Settings) (st : TrafficData)
    (h : NonNegState st) (hY : 0 ≤ s.yellow_duration) (hC : 0 ≤ s.cycle_duration) :
    NonNegState (decrementPhase s st) :=
  decrementStep_nonneg s _ 3
    (decrementStep_nonneg s _ 2
      (decrementStep_nonneg s _ 1
        (decrementStep_nonneg s _ 0 h hY hC) hY hC) hY hC) hY hC

theorem transitionStep_nonneg (s : Settings) (st : TrafficData) (i : Fin 4)
    (h : NonNegState st) (hY : 0 ≤ s.yellow_duration) (hC : 0 ≤ s.cycle_duration) :
    NonNegState (transitionStep s st i) := by
  intro j
  rw [transitionStep_get]
  split_ifs with hji
  · unfold laneStepped
    cases hn : (st.get i).next_state with
    | none => exact h i
    | some ns =>
      dsimp only
      split_ifs with ht
      · cases ns
        · show 0 ≤ calculate_red_time s
            (st.set i { st.get i with light := Light.red, next_state := none }) i
          refine calculate_red_time_nonneg s _ i ?_ hY hC
          intro j2
          rw [TrafficData.get_set]
          split_ifs with hj2
          · show 0 ≤ (st.get i).remaining_time
            exact h i
          · exact h j2
        · exact hY
        · exact hC
      · exact h i
  · exact h j

theorem transitionPhase_nonneg (s : Settings) (st : TrafficData)
    (h : NonNegState st) (hY : 0 ≤ s.yellow_duration) (hC : 0 ≤ s.cycle_duration) :
    NonNegState (transitionPhase s st) :=
  transitionStep_nonneg s _ 3
    (transitionStep_nonneg s _ 2
      (transitionStep_nonneg s _ 1
        (transitionStep_nonneg s _ 0 h hY hC) hY hC) hY hC) hY hC

theorem applyForcing_nonneg (y : Int) (t : Fin 4) (st : TrafficData)
    (h : NonNegState st) (hy : 0 ≤ y) : NonNegState (applyForcing y t st) := by
  intro i
  rw [applyForcing_get]
  unfold forceLane
  split_ifs <;> first | exact h i | exact hy

theorem normalRotation_nonneg (s : Settings) (st : TrafficData)
    (h : NonNegState st) (hY : 0 ≤ s.yellow_duration) :
    NonNegState (normalRotation s st) := by
  intro i
  unfold normalRotation
  split_ifs with h1
  · exact h i
  · cases hg : firstGreenLane st with
    | none =>
      rw [TrafficData.get_set]
      split_ifs with hi
      · exact hY
      · exact h i
    | some g =>
      dsimp only
      split_ifs with h2
      · exact h i
      · rw [TrafficData.get_set]
        split_ifs with ha
        · exact hY
        · rw [TrafficData.get_set]
          split_ifs with hb
          · exact hY
          · exact h i

theorem tick_nonneg (s : Settings) (st : TrafficData)
    (h : NonNegState st) (hY : 0 ≤ s.yellow_duration) (hC : 0 ≤ s.cycle_duration) :
    NonNegState (update_traffic_lights s st) := by
  have hmid : NonNegState (transitionPhase s (decrementPhase s st)) :=
    transitionPhase_nonneg s _ (decrementPhase_nonneg s st h hY hC) hY hC
  unfold update_traffic_lights
  cases he : firstEmergencyLane (transitionPhase s (decrementPhase s st)) with
  | some e => exact applyForcing_nonneg _ _ _ hmid hY
  | none =>
    cases hw : highWeightTarget s (transitionPhase s (decrementPhase s st)) with
    | some t => exact applyForcing_nonneg _ _ _ hmid hY
    | none => exact normalRotation_nonneg s _ hmid hY

theorem parseIntField_nonneg (o : Option ReqVal) (d c : Int) (hd : 0 ≤ d)
    (ho : ∀ n : Int, o = some (ReqVal.num n) → 0 ≤ n)
    (h : parseIntField o d = Except.ok c) : 0 ≤ c := by
  rcases o with _ | rv
  · simp [parseIntField] at h
    omega
  · cases rv with
    | num n =>
      simp [parseIntField] at h
      have := ho n rfl
      omega
    | nonNumeric v => simp [parseIntField] at h

theorem update_settings_nonneg (st : TrafficData) (s : Settings)
    (req : SettingsRequest) (h : NonNegState st)
    (hC : 0 ≤ s.cycle_duration) (hY : 0 ≤ s.yellow_duration)
    (hdur : ∀ n : Int, req.duration = some (ReqVal.num n) → 0 ≤ n)
    (hyel : ∀ n : Int, req.yellow_duration = some (ReqVal.num n) → 0 ≤ n) :
    NonNegState (update_settings st s req).1 ∧
    0 ≤ (update_settings st s req).2.1.cycle_duration ∧
    0 ≤ (update_settings st s req).2.1.yellow_duration := by
  cases hd : parseIntField req.duration s.cycle_duration with
  | error m =>
    simp only [update_settings, hd]
    exact ⟨h, hC, hY⟩
  | ok c =>
    have hc : 0 ≤ c := parseIntField_nonneg req.duration s.cycle_duration c hC hdur hd
    cases hy2 : parseIntField req.yellow_duration s.yellow_duration with
    | error m =>
      simp only [update_settings, hd, hy2]
      exact ⟨h, hc, hY⟩
    | ok yv =>
      have hyv : 0 ≤ yv :=
        parseIntField_nonneg req.yellow_duration s.yellow_duration yv hY hyel hy2
      simp only [update_settings, hd, hy2]
      refine ⟨fun i => ?_, hc, hyv⟩
      rw [TrafficData.get_map]
      unfold resetLane
      split_ifs with hp
      · exact hc
      · exact mul_nonneg (Int.natCast_nonneg _) hc

theorem setObservation_nonneg (st : TrafficData) (i : Fin 4) (e : Bool) (c : Nat)
    (w : ℚ) (h : NonNegState st) : NonNegState (setObservation st i e c w) := by
  intro j
  unfold setObservation
  rw [TrafficData.get_set]
  split_ifs with hj
  · show 0 ≤ (st.get i).remaining_time
    exact h i
  · exact h j

theorem reachableNN_inv (p : TrafficData × Settings) (h : ReachableNN p) :
    NonNegState p.1 ∧ 0 ≤ p.2.cycle_duration ∧ 0 ≤ p.2.yellow_duration := by
  induction h with
  | init => exact ⟨by intro i; fin_cases i <;> decide, by decide, by decide⟩
  | tick _ ih => exact ⟨tick_nonneg _ _ ih.1 ih.2.2 ih.2.1, ih.2.1, ih.2.2⟩
  | config req hdur hyel _ ih =>
    exact update_settings_nonneg _ _ req ih.1 ih.2.1 ih.2.2 hdur hyel
  | observe i e c w _ ih => exact ⟨setObservation_nonneg _ i e c w ih.1, ih.2.1, ih.2.2⟩

/-- C9 (amended): provided every configuration update supplies nonnegative
durations, `remaining_time` is nonnegative for every lane in every
reachable state (so after every tick); a red lane at 0 has its wait
recomputed at the next tick, but when no lane is green the recomputed wait
is 0 again, so a lane may stay at 0 across consecutive ticks. -/
theorem remaining_time_nonneg (st : TrafficData) (s : Settings)
    (h : ReachableNN (st, s)) : ∀ i : Fin 4, 0 ≤ (st.get i).remaining_time :=
  (reachableNN_inv (st, s) h).1

theorem remaining_time_nonneg_witness :
    0 ≤ (initialTrafficData.get 0).remaining_time :=
  remaining_time_nonneg initialTrafficData initialSettings ReachableNN.init 0

theorem emergency_first_lane_forcing_witness :
    update_traffic_lights initialSettings emergencyRedState =
      applyForcing initialSettings.yellow_duration 0
        (transitionPhase initialSettings
          (decrementPhase initialSettings emergencyRedState)) :=
  (emergency_first_lane_forcing initialSettings emergencyRedState 0 rfl
    (by decide)).1
